import Mathlib

/-!
# Verification of the Jellyfin → Home Assistant event debouncer (`src/server.py`)

Shallow embedding of the core of `server.py`: the per-device `Session` record,
the session store (a map from device id to session, here an association list
mirroring the Python `dict`), the event classifier `process_event`, and the
debounce-timer callback `_confirm_pause`.

Modelling conventions:
* A webhook body (`body : dict`) becomes a `Record` with one `Option` field per
  JSON key the code reads; `body.get(k, d)` becomes `(r.k).getD d`, so an
  absent key and a present-but-empty value stay distinguishable, as in Python.
* The `threading.Timer` handle `_pause_timer` is modelled by a `Bool` that
  records whether a handle is currently stored (`_pause_timer is not None`);
  the timer actually firing is a separate step that runs `confirm_pause`,
  which (as in the code) re-checks the `_debouncing` flag and aborts if it was
  cleared, so letting the fire step happen at any time over-approximates the
  real scheduler soundly.
* Python float arithmetic on tick counts is modelled over `ℚ`.  A division is
  wrapped in `fdiv`, which returns `none` for a zero divisor exactly where
  Python would raise `ZeroDivisionError`; the fallible functions therefore
  return `Option`, and totality theorems show the guards in the code keep
  every division away from zero.
* `emit` builds the outbound payload minus the wall-clock timestamp (external
  time is not modelled).  Python's `round(x, 1)` rounds half to even on the
  exact value, modelled by `pyRound1`; binary-float representation error is
  out of scope.
* `pyStrip`/`pyLower` model Python's `str.strip()`/`str.lower()` as whitespace
  trimming and character-wise lowering over the character list; the claims
  only exercise them on ASCII.
-/

/-- Python `str.lower()`, character-wise over the string's characters (the
claims only use ASCII names, where `Char.toLower` agrees with Python). -/
def pyLower (s : String) : String := String.mk (s.data.map Char.toLower)

/-- Python `str.strip()`: drop whitespace from both ends. -/
def pyStrip (s : String) : String :=
  String.mk
    (((s.data.dropWhile Char.isWhitespace).reverse.dropWhile
        Char.isWhitespace).reverse)

/-- Playback states are the literal strings `"idle" | "playing" | "paused"`
used by the code. -/
abbrev PState := String

/-- Per-device session state, from the `@dataclass Session` in `server.py`.
`pause_timer` models `_pause_timer is not None`; `debouncing` is
`_debouncing`. -/
structure Session where
  device_id : String
  device_name : String := ""
  client_name : String := ""
  media_name : String := ""
  media_type : String := ""
  item_id : String := ""
  run_time_ticks : Int := 0
  state : PState := "idle"
  last_position_ticks : Int := 0
  media_end_emitted : Bool := false
  pause_timer : Bool := false
  debouncing : Bool := false
  deriving DecidableEq, Repr

/-- `Session.cancel_pause_timer`: cancel a pending timer (dropping the handle)
and clear the debounce flag. -/
def Session.cancel_pause_timer (s : Session) : Session :=
  { s with pause_timer := false, debouncing := false }

/-- A normalized webhook body: each field is `none` when the JSON key is
absent, mirroring `body.get(...)` on the Python `dict`. -/
structure Record where
  NotificationType : Option String := none
  DeviceId : Option String := none
  DeviceName : Option String := none
  ClientName : Option String := none
  Name : Option String := none
  ItemType : Option String := none
  ItemId : Option String := none
  IsPaused : Option Bool := none
  PlaybackPositionTicks : Option Int := none
  RunTimeTicks : Option Int := none
  deriving DecidableEq, Repr

/-- The configuration the classifier reads: `CREDITS_THRESHOLD_PCT` and
`ALLOWED_DEVICES`.  (`PAUSE_DEBOUNCE_SECS` only sets the real-time delay of
the timer, which the model replaces by an explicit fire step.) -/
structure Config where
  credits_threshold_pct : ℚ
  allowed_devices : List String
  deriving DecidableEq, Repr

/-- Python `str.split(",")` over a character list: split at every comma,
keeping empty pieces (`[] ↦ [""]`). -/
def splitOnComma (l : List Char) : List (List Char) :=
  match l with
  | [] => [[]]
  | x :: xs =>
    match splitOnComma xs, decide (x = ',') with
    | r, true => [] :: r
    | [], false => [[x]]
    | h :: t, false => (x :: h) :: t

/-- `ALLOWED_DEVICES` as built from the raw environment string:
`{d.strip().lower() for d in raw.split(",") if d.strip()}` when the raw
string is non-empty, else the empty set. -/
def parseAllowedDevices (raw : String) : List String :=
  if raw = "" then []
  else ((((splitOnComma raw.data).map String.mk).filter
      (fun d => pyStrip d ≠ "")).map
    (fun d => pyLower (pyStrip d)))

/-- Checked division over `ℚ`: `none` exactly when Python would raise
`ZeroDivisionError`. -/
def fdiv (a b : ℚ) : Option ℚ := if b = 0 then none else some (a / b)

/-- Python's `round(x, 1)`: round half to even at one decimal. -/
def pyRound1 (q : ℚ) : ℚ :=
  let x := q * 10
  let f : ℤ := Int.floor x
  let r := x - (f : ℚ)
  let n : ℤ :=
    if r < 1/2 then f
    else if 1/2 < r then f + 1
    else if f % 2 = 0 then f else f + 1
  (n : ℚ) / 10

/-- The payload `emit` hands to the notifier (minus the timestamp). -/
structure Event where
  event : String
  device : String
  client : String
  media : String
  media_type : String
  position_pct : ℚ
  deriving DecidableEq, Repr

/-- `emit(event, session)`: `position_pct` is `0.0` unless
`run_time_ticks > 0`, in which case it is
`round(last_position_ticks / run_time_ticks * 100, 1)`. -/
def emit (event : String) (s : Session) : Option Event :=
  (if 0 < s.run_time_ticks then
      (fdiv (s.last_position_ticks : ℚ) (s.run_time_ticks : ℚ)).map
        (fun q => pyRound1 (q * 100))
    else some 0).map
    (fun position_pct =>
      { event := event, device := s.device_name, client := s.client_name,
        media := s.media_name, media_type := s.media_type,
        position_pct := position_pct })

/-- The metadata update block: `body.get(key, current)` for the four string
fields, and `run_time_ticks or s.run_time_ticks` (Python `or`: `0` is falsy)
for the run length. -/
def update_metadata (s : Session) (body : Record) : Session :=
  { s with
    device_name := body.DeviceName.getD s.device_name,
    client_name := body.ClientName.getD s.client_name,
    media_name := body.Name.getD s.media_name,
    media_type := body.ItemType.getD s.media_type,
    run_time_ticks :=
      if body.RunTimeTicks.getD 0 = 0 then s.run_time_ticks
      else body.RunTimeTicks.getD 0 }

/-- The "new media item → reset" block: when the incoming item id is non-empty
and differs, cancel any pending debounce, adopt the id, clear
`media_end_emitted`. -/
def adopt_item (s : Session) (item_id : String) : Session :=
  if item_id ≠ "" ∧ item_id ≠ s.item_id then
    { s.cancel_pause_timer with item_id := item_id, media_end_emitted := false }
  else s

/-- The credits-reset guard
`s.media_end_emitted and s.run_time_ticks > 0 and pos / run * 100 < THRESHOLD`,
with the division evaluated only after the short-circuiting conjuncts hold. -/
def credits_reset_check (thr : ℚ) (s : Session) (position_ticks : Int) : Option Bool :=
  if s.media_end_emitted = true ∧ 0 < s.run_time_ticks then
    (fdiv (position_ticks : ℚ) (s.run_time_ticks : ℚ)).map
      (fun q => decide (q * 100 < thr))
  else some false

/-- The credits-detection guard
`not s.media_end_emitted and s.run_time_ticks > 0 and pos / run * 100 >= THRESHOLD`. -/
def credits_end_check (thr : ℚ) (s : Session) (position_ticks : Int) : Option Bool :=
  if s.media_end_emitted = false ∧ 0 < s.run_time_ticks then
    (fdiv (position_ticks : ℚ) (s.run_time_ticks : ℚ)).map
      (fun q => decide (thr ≤ q * 100))
  else some false

/-- The `PlaybackStart` branch: cancel any pending debounce, record the
position, enter `playing`, clear `media_end_emitted`, and forward the raw
event. -/
def handle_start (position_ticks : Int) (s : Session) :
    Option (Session × List Event) :=
  let s := { s.cancel_pause_timer with
             last_position_ticks := position_ticks,
             state := "playing", media_end_emitted := false }
  (emit "PlaybackStart" s).map (fun e => (s, [e]))

/-- The `PlaybackStop` branch: cancel any pending debounce, record the
position, enter `idle`, and forward the raw event. -/
def handle_stop (position_ticks : Int) (s : Session) :
    Option (Session × List Event) :=
  let s := { s.cancel_pause_timer with
             last_position_ticks := position_ticks, state := "idle" }
  (emit "PlaybackStop" s).map (fun e => (s, [e]))

/-- The `IsPaused=false → playing` block of the `PlaybackProgress` branch. -/
def resume_rule (s : Session) : Option (Session × List Event) :=
  if s.debouncing then
    -- seek during the pause-detection window: cancel, emit nothing
    some (s.cancel_pause_timer, [])
  else if s.state = "paused" ∨ s.state = "idle" then
    -- don't emit play if we already emitted media_end
    if s.media_end_emitted then some (s, [])
    else
      let s := { s with state := "playing" }
      (emit "play" s).map (fun e => (s, [e]))
  else some (s, [])

/-- The `IsPaused=true → maybe pause` block: start a debounce when playing
and none is in progress. -/
def pause_rule (s : Session) : Option (Session × List Event) :=
  if s.state = "playing" ∧ s.debouncing = false then
    some ({ s with debouncing := true, pause_timer := true }, [])
  else some (s, [])

/-- The `PlaybackProgress` branch: record the position, apply the
credits-reset and credits-detection rules, then dispatch on `IsPaused`. -/
def handle_progress (cfg : Config) (is_paused : Bool) (position_ticks : Int)
    (s : Session) : Option (Session × List Event) :=
  let s := { s with last_position_ticks := position_ticks }
  (credits_reset_check cfg.credits_threshold_pct s position_ticks).bind
    (fun reset =>
      let s := if reset then { s with media_end_emitted := false } else s
      (credits_end_check cfg.credits_threshold_pct s position_ticks).bind
        (fun fire =>
          if fire then
            let s := { s.cancel_pause_timer with
                       media_end_emitted := true, state := "idle" }
            (emit "media_end" s).map (fun e => (s, [e]))
          else if is_paused = false then resume_rule s
          else pause_rule s))

/-- The body of `process_event` that runs under `_lock`, acting on the
session found (or freshly created) for the device: metadata update, item
adoption, then dispatch on the notification type.  Returns the updated
session and the list of events emitted while handling this record. -/
def process_locked (cfg : Config) (body : Record) (s0 : Session) :
    Option (Session × List Event) :=
  let notification_type := body.NotificationType.getD ""
  let s := adopt_item (update_metadata s0 body) (body.ItemId.getD "")
  if notification_type = "PlaybackStart" then
    handle_start (body.PlaybackPositionTicks.getD 0) s
  else if notification_type = "PlaybackStop" then
    handle_stop (body.PlaybackPositionTicks.getD 0) s
  else if notification_type ≠ "PlaybackProgress" then
    some (s, [])
  else
    handle_progress cfg (body.IsPaused.getD false)
      (body.PlaybackPositionTicks.getD 0) s

/-- The session store `sessions : dict[str, Session]`, as an association
list. -/
abbrev Store := List (String × Session)

/-- `sessions.get(device_id)`. -/
def Store.get? (st : Store) (k : String) : Option Session :=
  match st with
  | [] => none
  | (k', v) :: rest => if k' = k then some v else Store.get? rest k

/-- `sessions[device_id] = s`: replace in place, or insert. -/
def Store.set (st : Store) (k : String) (v : Session) : Store :=
  match st with
  | [] => [(k, v)]
  | (k', v') :: rest =>
    if k' = k then (k, v) :: rest else (k', v') :: Store.set rest k v

/-- `process_event(body)`: drop records with no device id; apply the
allow-list filter on the record's device name; then, under the lock, fetch or
create the session and run the classifier, writing the updated session back
into the store. -/
def process_event (cfg : Config) (sessions : Store) (body : Record) :
    Option (Store × List Event) :=
  let device_id := body.DeviceId.getD ""
  let device_name := body.DeviceName.getD ""
  if device_id = "" then some (sessions, [])
  else if cfg.allowed_devices ≠ [] ∧
      cfg.allowed_devices.contains (pyLower (pyStrip device_name)) = false then
    some (sessions, [])
  else
    let s0 := (sessions.get? device_id).getD { device_id := device_id }
    (process_locked cfg body s0).map
      (fun p => (sessions.set device_id p.1, p.2))

/-- The debounce-timer callback `_confirm_pause(did)`: under the lock, if the
session still exists and is still debouncing, clear the flag and handle, move
to `paused`, and emit `pause`; otherwise do nothing. -/
def confirm_pause (sessions : Store) (did : String) :
    Option (Store × List Event) :=
  match sessions.get? did with
  | none => some (sessions, [])
  | some ss =>
    if ss.debouncing then
      let ss :=
        { ss with debouncing := false, pause_timer := false, state := "paused" }
      (emit "pause" ss).map (fun e => (sessions.set did ss, [e]))
    else some (sessions, [])

/-- One lock-serialized step of the whole system: either an inbound record is
processed, or a debounce timer fires for some device. -/
inductive Step where
  | recv (body : Record)
  | fire (did : String)

/-- Run one step against the store. -/
def stepRun (cfg : Config) (st : Store) : Step → Option (Store × List Event)
  | .recv body => process_event cfg st body
  | .fire did => confirm_pause st did

/-- Stores reachable from the initial empty session map by lock-serialized
steps. -/
inductive Reachable (cfg : Config) : Store → Prop where
  | init : Reachable cfg []
  | step : ∀ {st st' es} (s : Step), Reachable cfg st →
      stepRun cfg st s = some (st', es) → Reachable cfg st'

/-! ## Basic lemmas about the embedded operations -/

lemma pyLower_ne_empty {s : String} (h : s ≠ "") : pyLower s ≠ "" := by
  simp only [pyLower]
  intro hc
  apply h
  have h1 : s.data.map Char.toLower = [] := by
    have := congrArg String.data hc
    simpa using this
  have hd : s.data = [] := by simpa using h1
  cases s with
  | mk d =>
    simp only [String.data] at hd
    rw [show ("" : String) = String.mk [] from rfl, hd]

/-- The allow-list built by `parseAllowedDevices` never contains the empty
string: every member is the lowering of a non-empty stripped name. -/
lemma empty_not_mem_parseAllowedDevices (raw : String) :
    ("" : String) ∉ parseAllowedDevices raw := by
  simp only [parseAllowedDevices]
  split
  · simp
  · intro hmem
    simp only [List.mem_map, List.mem_filter] at hmem
    obtain ⟨d, ⟨-, hne⟩, heq⟩ := hmem
    exact pyLower_ne_empty (by simpa using hne) heq

lemma fdiv_of_ne {a b : ℚ} (h : b ≠ 0) : fdiv a b = some (a / b) := by
  simp [fdiv, h]

/-- The payload `emit` produces (timestamp aside). -/
def payload (event : String) (s : Session) : Event :=
  { event := event, device := s.device_name, client := s.client_name,
    media := s.media_name, media_type := s.media_type,
    position_pct :=
      if 0 < s.run_time_ticks then
        pyRound1 ((s.last_position_ticks : ℚ) / (s.run_time_ticks : ℚ) * 100)
      else 0 }

lemma emit_eq (ev : String) (s : Session) : emit ev s = some (payload ev s) := by
  unfold emit payload
  split
  · rename_i h
    rw [fdiv_of_ne (Int.cast_ne_zero.mpr h.ne')]
    simp
  · rename_i h
    simp [if_neg h]

lemma credits_reset_check_eq (thr : ℚ) (s : Session) (p : Int) :
    credits_reset_check thr s p =
      some ((s.media_end_emitted && decide (0 < s.run_time_ticks)) &&
        decide ((p : ℚ) / (s.run_time_ticks : ℚ) * 100 < thr)) := by
  unfold credits_reset_check
  split
  · rename_i h
    rw [fdiv_of_ne (Int.cast_ne_zero.mpr h.2.ne')]
    simp [h.1, h.2]
  · rename_i h
    rcases not_and_or.mp h with h1 | h1
    · simp [show s.media_end_emitted = false by simpa using h1]
    · simp [show decide (0 < s.run_time_ticks) = false by simpa using h1]

lemma credits_end_check_eq (thr : ℚ) (s : Session) (p : Int) :
    credits_end_check thr s p =
      some (((!s.media_end_emitted) && decide (0 < s.run_time_ticks)) &&
        decide (thr ≤ (p : ℚ) / (s.run_time_ticks : ℚ) * 100)) := by
  unfold credits_end_check
  split
  · rename_i h
    rw [fdiv_of_ne (Int.cast_ne_zero.mpr h.2.ne')]
    simp [h.1, h.2]
  · rename_i h
    rcases not_and_or.mp h with h1 | h1
    · simp [show s.media_end_emitted = true by simpa using h1]
    · simp [show decide (0 < s.run_time_ticks) = false by simpa using h1]

lemma credits_reset_check_of_not_emitted {s : Session} (thr : ℚ) (p : Int)
    (h : s.media_end_emitted = false) :
    credits_reset_check thr s p = some false := by
  rw [credits_reset_check_eq, h]
  simp

lemma credits_end_check_of_emitted {s : Session} (thr : ℚ) (p : Int)
    (h : s.media_end_emitted = true) :
    credits_end_check thr s p = some false := by
  rw [credits_end_check_eq, h]
  simp

/-! Field bookkeeping for the metadata / item-adoption stages. -/

lemma cancel_pause_timer_def (s : Session) :
    s.cancel_pause_timer =
      { s with pause_timer := false, debouncing := false } := rfl

@[simp] lemma cancel_pause_timer_pause_timer (s : Session) : s.cancel_pause_timer.pause_timer = false := rfl

@[simp] lemma cancel_pause_timer_debouncing (s : Session) : s.cancel_pause_timer.debouncing = false := rfl

@[simp] lemma cancel_pause_timer_state (s : Session) : s.cancel_pause_timer.state = s.state := rfl

@[simp] lemma cancel_pause_timer_item_id (s : Session) : s.cancel_pause_timer.item_id = s.item_id := rfl

@[simp] lemma cancel_pause_timer_media_end (s : Session) : s.cancel_pause_timer.media_end_emitted = s.media_end_emitted := rfl

@[simp] lemma cancel_pause_timer_last_position (s : Session) : s.cancel_pause_timer.last_position_ticks = s.last_position_ticks := rfl

@[simp] lemma cancel_pause_timer_run_time (s : Session) : s.cancel_pause_timer.run_time_ticks = s.run_time_ticks := rfl

@[simp] lemma cancel_pause_timer_device_name (s : Session) : s.cancel_pause_timer.device_name = s.device_name := rfl

@[simp] lemma cancel_pause_timer_client_name (s : Session) : s.cancel_pause_timer.client_name = s.client_name := rfl

@[simp] lemma cancel_pause_timer_media_name (s : Session) : s.cancel_pause_timer.media_name = s.media_name := rfl

@[simp] lemma cancel_pause_timer_media_type (s : Session) : s.cancel_pause_timer.media_type = s.media_type := rfl

@[simp] lemma cancel_pause_timer_device_id (s : Session) : s.cancel_pause_timer.device_id = s.device_id := rfl

@[simp] lemma update_metadata_state (s : Session) (b : Record) : (update_metadata s b).state = s.state := rfl

@[simp] lemma update_metadata_last_position (s : Session) (b : Record) : (update_metadata s b).last_position_ticks = s.last_position_ticks := rfl

@[simp] lemma update_metadata_media_end (s : Session) (b : Record) : (update_metadata s b).media_end_emitted = s.media_end_emitted := rfl

@[simp] lemma update_metadata_item_id (s : Session) (b : Record) : (update_metadata s b).item_id = s.item_id := rfl

@[simp] lemma update_metadata_debouncing (s : Session) (b : Record) : (update_metadata s b).debouncing = s.debouncing := rfl

@[simp] lemma update_metadata_pause_timer (s : Session) (b : Record) : (update_metadata s b).pause_timer = s.pause_timer := rfl

@[simp] lemma update_metadata_device_id (s : Session) (b : Record) : (update_metadata s b).device_id = s.device_id := rfl

lemma update_metadata_device_name (s : Session) (b : Record) : (update_metadata s b).device_name = b.DeviceName.getD s.device_name := rfl

lemma update_metadata_client_name (s : Session) (b : Record) : (update_metadata s b).client_name = b.ClientName.getD s.client_name := rfl

lemma update_metadata_media_name (s : Session) (b : Record) : (update_metadata s b).media_name = b.Name.getD s.media_name := rfl

lemma update_metadata_media_type (s : Session) (b : Record) : (update_metadata s b).media_type = b.ItemType.getD s.media_type := rfl

lemma update_metadata_run_time (s : Session) (b : Record) :
    (update_metadata s b).run_time_ticks =
      if b.RunTimeTicks.getD 0 = 0 then s.run_time_ticks
      else b.RunTimeTicks.getD 0 := rfl

lemma adopt_item_of_same {s : Session} {it : String}
    (h : it = "" ∨ it = s.item_id) : adopt_item s it = s := by
  unfold adopt_item
  rcases h with h | h <;> simp [h]

@[simp] lemma adopt_item_state (s : Session) (it : String) : (adopt_item s it).state = s.state := by
  unfold adopt_item
  split <;> rfl

@[simp] lemma adopt_item_last_position (s : Session) (it : String) : (adopt_item s it).last_position_ticks = s.last_position_ticks := by
  unfold adopt_item
  split <;> rfl

@[simp] lemma adopt_item_run_time (s : Session) (it : String) : (adopt_item s it).run_time_ticks = s.run_time_ticks := by
  unfold adopt_item
  split <;> rfl

@[simp] lemma adopt_item_device_name (s : Session) (it : String) : (adopt_item s it).device_name = s.device_name := by
  unfold adopt_item
  split <;> rfl

@[simp] lemma adopt_item_client_name (s : Session) (it : String) : (adopt_item s it).client_name = s.client_name := by
  unfold adopt_item
  split <;> rfl

@[simp] lemma adopt_item_media_name (s : Session) (it : String) : (adopt_item s it).media_name = s.media_name := by
  unfold adopt_item
  split <;> rfl

@[simp] lemma adopt_item_media_type (s : Session) (it : String) : (adopt_item s it).media_type = s.media_type := by
  unfold adopt_item
  split <;> rfl

@[simp] lemma adopt_item_device_id (s : Session) (it : String) : (adopt_item s it).device_id = s.device_id := by
  unfold adopt_item
  split <;> rfl

/-! Association-list store lemmas. -/

lemma Store.get?_set_self (st : Store) (k : String) (v : Session) :
    (st.set k v).get? k = some v := by
  induction st with
  | nil => simp [Store.set, Store.get?]
  | cons hd tl ih =>
    by_cases h : hd.1 = k <;> simp [Store.set, Store.get?, h, ih]

lemma Store.get?_set_ne (st : Store) {k k' : String} (v : Session)
    (h : k' ≠ k) : (st.set k v).get? k' = st.get? k' := by
  induction st with
  | nil => simp [Store.set, Store.get?, Ne.symm h]
  | cons hd tl ih =>
    by_cases hh : hd.1 = k
    · simp [Store.set, hh, Store.get?, Ne.symm h]
    · by_cases hh' : hd.1 = k' <;> simp [Store.set, hh, Store.get?, hh', h, ih]

lemma Store.mem_set {st : Store} {k : String} {v : Session}
    {p : String × Session} (h : p ∈ st.set k v) : p = (k, v) ∨ p ∈ st := by
  induction st with
  | nil => simpa [Store.set] using h
  | cons hd tl ih =>
    by_cases hh : hd.1 = k
    · simp only [Store.set, if_pos hh, List.mem_cons] at h
      rcases h with h | h
      · exact .inl h
      · exact .inr (List.mem_cons_of_mem _ h)
    · simp only [Store.set, if_neg hh, List.mem_cons] at h
      rcases h with h | h
      · exact .inr (h ▸ List.mem_cons_self _ _)
      · rcases ih h with h | h
        · exact .inl h
        · exact .inr (List.mem_cons_of_mem _ h)

lemma Store.get?_mem {st : Store} {k : String} {v : Session}
    (h : st.get? k = some v) : (k, v) ∈ st := by
  induction st with
  | nil => simp [Store.get?] at h
  | cons hd tl ih =>
    by_cases hh : hd.1 = k
    · simp only [Store.get?, if_pos hh] at h
      cases hd
      simp_all
    · simp only [Store.get?, if_neg hh] at h
      exact List.mem_cons_of_mem _ (ih h)

/-! ## Unfolding lemmas for `process_event` -/

/-- A record failing the device-id or allow-list filter is returned before the
lock is taken: store unchanged, nothing emitted. -/
lemma process_event_drop (cfg : Config) (st : Store) (body : Record)
    (h : body.DeviceId.getD "" = "" ∨
      (cfg.allowed_devices ≠ [] ∧
        cfg.allowed_devices.contains
          (pyLower (pyStrip (body.DeviceName.getD ""))) = false)) :
    process_event cfg st body = some (st, []) := by
  simp only [process_event]
  rcases h with h | h
  · rw [if_pos h]
  · by_cases hd : body.DeviceId.getD "" = ""
    · rw [if_pos hd]
    · rw [if_neg hd, if_pos h]

/-- A record passing both filters reaches the locked classifier body on the
stored (or fresh) session, and the result is written back under its device
id. -/
lemma process_event_pass (cfg : Config) (st : Store) (body : Record)
    (hdid : body.DeviceId.getD "" ≠ "")
    (hallow : cfg.allowed_devices ≠ [] →
      cfg.allowed_devices.contains
        (pyLower (pyStrip (body.DeviceName.getD ""))) = true) :
    process_event cfg st body =
      (process_locked cfg body
        ((st.get? (body.DeviceId.getD "")).getD
          { device_id := body.DeviceId.getD "" })).map
        (fun p => (st.set (body.DeviceId.getD "") p.1, p.2)) := by
  simp only [process_event]
  rw [if_neg hdid, if_neg ?_]
  rintro ⟨h1, h2⟩
  rw [hallow h1] at h2
  cases h2

/-! ## Totality: the classifier and timer callback never fail
(every division is reached only under a positive run-length guard). -/

lemma handle_start_isSome (p : Int) (s : Session) : (handle_start p s).isSome := by
  simp only [handle_start]
  rw [emit_eq]
  rfl

lemma handle_stop_isSome (p : Int) (s : Session) : (handle_stop p s).isSome := by
  simp only [handle_stop]
  rw [emit_eq]
  rfl

lemma resume_rule_isSome (s : Session) : (resume_rule s).isSome := by
  simp only [resume_rule]
  split
  · rfl
  · split
    · split
      · rfl
      · rw [emit_eq]
        rfl
    · rfl

lemma pause_rule_isSome (s : Session) : (pause_rule s).isSome := by
  simp only [pause_rule]
  split <;> rfl

lemma bind_isSome_of {α β : Type} {o : Option α} {f : α → Option β}
    (h : o.isSome) (hf : ∀ a, (f a).isSome) : (o.bind f).isSome := by
  cases o with
  | none => cases h
  | some a => exact hf a

lemma handle_progress_isSome (cfg : Config) (ip : Bool) (p : Int) (s : Session) :
    (handle_progress cfg ip p s).isSome := by
  simp only [handle_progress]
  apply bind_isSome_of
  · rw [credits_reset_check_eq]
    rfl
  · intro reset
    apply bind_isSome_of
    · rw [credits_end_check_eq]
      rfl
    · intro fire
      split
      · rw [emit_eq]
        rfl
      · split
        · exact resume_rule_isSome _
        · exact pause_rule_isSome _

lemma process_locked_isSome (cfg : Config) (body : Record) (s0 : Session) :
    (process_locked cfg body s0).isSome := by
  simp only [process_locked]
  split
  · exact handle_start_isSome _ _
  · split
    · exact handle_stop_isSome _ _
    · split
      · rfl
      · exact handle_progress_isSome _ _ _ _

lemma process_event_isSome (cfg : Config) (st : Store) (body : Record) :
    (process_event cfg st body).isSome := by
  simp only [process_event]
  split
  · rfl
  · split
    · rfl
    · rw [Option.isSome_map']
      exact process_locked_isSome ..

lemma confirm_pause_isSome (st : Store) (did : String) :
    (confirm_pause st did).isSome := by
  simp only [confirm_pause]
  split
  · rfl
  · split
    · rw [emit_eq]
      rfl
    · rfl

/-! ## Value-level characterizations of the dispatch branches -/

lemma handle_start_eq (p : Int) (s : Session) :
    handle_start p s =
      some ({ s.cancel_pause_timer with
              last_position_ticks := p,
              state := "playing", media_end_emitted := false },
        [payload "PlaybackStart"
          { s.cancel_pause_timer with
            last_position_ticks := p,
            state := "playing", media_end_emitted := false }]) := by
  simp only [handle_start]
  rw [emit_eq]
  rfl

lemma handle_stop_eq (p : Int) (s : Session) :
    handle_stop p s =
      some ({ s.cancel_pause_timer with
              last_position_ticks := p,
              state := "idle" },
        [payload "PlaybackStop"
          { s.cancel_pause_timer with
            last_position_ticks := p,
            state := "idle" }]) := by
  simp only [handle_stop]
  rw [emit_eq]
  rfl

lemma resume_rule_debouncing {s : Session} (h : s.debouncing = true) :
    resume_rule s = some (s.cancel_pause_timer, []) := by
  simp only [resume_rule, h]
  rfl

lemma resume_rule_playing {s : Session} (hd : s.debouncing = false)
    (h : s.state = "playing") : resume_rule s = some (s, []) := by
  simp only [resume_rule, hd, h]
  rfl

lemma resume_rule_suppressed {s : Session} (hd : s.debouncing = false)
    (h : s.state = "paused" ∨ s.state = "idle")
    (hm : s.media_end_emitted = true) : resume_rule s = some (s, []) := by
  simp only [resume_rule, hd, Bool.false_eq_true, if_false, if_pos h, hm]
  rfl

lemma resume_rule_play {s : Session} (hd : s.debouncing = false)
    (h : s.state = "paused" ∨ s.state = "idle")
    (hm : s.media_end_emitted = false) :
    resume_rule s =
      some ({ s with state := "playing" },
        [payload "play" { s with state := "playing" }]) := by
  simp only [resume_rule, hd, Bool.false_eq_true, if_false, if_pos h, hm]
  rw [emit_eq]
  rfl

lemma pause_rule_arm {s : Session} (h1 : s.state = "playing")
    (h2 : s.debouncing = false) :
    pause_rule s = some ({ s with debouncing := true, pause_timer := true }, []) := by
  simp only [pause_rule, if_pos (And.intro h1 h2)]

lemma pause_rule_skip {s : Session}
    (h : ¬(s.state = "playing" ∧ s.debouncing = false)) :
    pause_rule s = some (s, []) := by
  simp only [pause_rule, if_neg h]

/-- `handle_progress` when neither credits rule triggers: only the resume or
pause-candidate rule runs, on the session with the position recorded. -/
lemma handle_progress_no_credits (cfg : Config) (ip : Bool) (p : Int)
    (s : Session)
    (hreset : credits_reset_check cfg.credits_threshold_pct
      { s with last_position_ticks := p } p = some false)
    (hend : credits_end_check cfg.credits_threshold_pct
      { s with last_position_ticks := p } p = some false) :
    handle_progress cfg ip p s =
      if ip = false then resume_rule { s with last_position_ticks := p }
      else pause_rule { s with last_position_ticks := p } := by
  simp only [handle_progress]
  rw [hreset, Option.some_bind]
  simp only [Bool.false_eq_true, if_false]
  rw [hend, Option.some_bind]
  simp only [Bool.false_eq_true, if_false]

/-- `handle_progress` when the credits-detection rule fires: one `media_end`,
flag set, state `idle`, debounce canceled, and processing stops. -/
lemma handle_progress_fire (cfg : Config) (ip : Bool) (p : Int) (s : Session)
    (hreset : credits_reset_check cfg.credits_threshold_pct
      { s with last_position_ticks := p } p = some false)
    (hend : credits_end_check cfg.credits_threshold_pct
      { s with last_position_ticks := p } p = some true) :
    handle_progress cfg ip p s =
      some ({ s with
              last_position_ticks := p, media_end_emitted := true,
              state := "idle", pause_timer := false, debouncing := false },
        [payload "media_end"
          { s with
            last_position_ticks := p, media_end_emitted := true,
            state := "idle", pause_timer := false, debouncing := false }]) := by
  simp only [handle_progress]
  rw [hreset, Option.some_bind]
  simp only [Bool.false_eq_true, if_false]
  rw [hend, Option.some_bind]
  simp only [if_true]
  rw [emit_eq]
  rfl

/-- `handle_progress` when the credits-reset rule fires and detection then
does not: the flag is cleared before the `IsPaused` dispatch. -/
lemma handle_progress_reset (cfg : Config) (ip : Bool) (p : Int) (s : Session)
    (hreset : credits_reset_check cfg.credits_threshold_pct
      { s with last_position_ticks := p } p = some true)
    (hend : credits_end_check cfg.credits_threshold_pct
      { s with last_position_ticks := p, media_end_emitted := false } p = some false) :
    handle_progress cfg ip p s =
      if ip = false then
        resume_rule { s with last_position_ticks := p, media_end_emitted := false }
      else pause_rule { s with last_position_ticks := p, media_end_emitted := false } := by
  simp only [handle_progress]
  rw [hreset, Option.some_bind]
  simp only [if_true]
  rw [hend, Option.some_bind]
  simp only [Bool.false_eq_true, if_false]

/-! Arithmetic characterizations of the credits guards. -/

lemma credits_end_check_false_of_lt {thr : ℚ} {s : Session} {p : Int}
    (h : s.run_time_ticks ≤ 0 ∨
      (p : ℚ) / (s.run_time_ticks : ℚ) * 100 < thr) :
    credits_end_check thr s p = some false := by
  rw [credits_end_check_eq]
  rcases h with h | h
  · simp [show ¬(0 < s.run_time_ticks) from not_lt.mpr h]
  · simp [show ¬(thr ≤ (p : ℚ) / (s.run_time_ticks : ℚ) * 100) from not_le.mpr h]

lemma credits_reset_check_false_of_ge {thr : ℚ} {s : Session} {p : Int}
    (h : s.run_time_ticks ≤ 0 ∨
      thr ≤ (p : ℚ) / (s.run_time_ticks : ℚ) * 100) :
    credits_reset_check thr s p = some false := by
  rw [credits_reset_check_eq]
  rcases h with h | h
  · simp [show ¬(0 < s.run_time_ticks) from not_lt.mpr h]
  · simp [show ¬((p : ℚ) / (s.run_time_ticks : ℚ) * 100 < thr) from not_lt.mpr h]

lemma credits_end_check_true_of {thr : ℚ} {s : Session} {p : Int}
    (hflag : s.media_end_emitted = false) (hrun : 0 < s.run_time_ticks)
    (h : thr ≤ (p : ℚ) / (s.run_time_ticks : ℚ) * 100) :
    credits_end_check thr s p = some true := by
  rw [credits_end_check_eq]
  simp [hflag, hrun, h]

lemma credits_reset_check_true_of {thr : ℚ} {s : Session} {p : Int}
    (hflag : s.media_end_emitted = true) (hrun : 0 < s.run_time_ticks)
    (h : (p : ℚ) / (s.run_time_ticks : ℚ) * 100 < thr) :
    credits_reset_check thr s p = some true := by
  rw [credits_reset_check_eq]
  simp [hflag, hrun, h]

/-! ## Claims -/

/-- C7: a record with an empty device identifier, or — when the allow-list is
non-empty — whose (trimmed, lowercased) device name is not in the allow-list,
has no effect in any state: the store is returned unchanged (no session
created, none mutated) and nothing is emitted. -/
theorem c7_filtered_records_have_no_effect (cfg : Config) (st : Store)
    (body : Record)
    (h : body.DeviceId.getD "" = "" ∨
      (cfg.allowed_devices ≠ [] ∧
        cfg.allowed_devices.contains
          (pyLower (pyStrip (body.DeviceName.getD ""))) = false)) :
    process_event cfg st body = some (st, []) :=
  process_event_drop cfg st body h

def cfgC7 : Config :=
  { credits_threshold_pct := 95, allowed_devices := ["livingroom tv"] }

def bodyC7 : Record :=
  { NotificationType := some "PlaybackProgress", DeviceId := some "d7",
    DeviceName := some "Bedroom TV" }

def bodyC7b : Record :=
  { NotificationType := some "PlaybackStart", DeviceId := some "" }

/-- C7 witness: a device named "Bedroom TV" against an allow-list holding
only "livingroom tv" is dropped, as is a record with an empty device id. -/
theorem c7_witness :
    process_event cfgC7 [] bodyC7 = some ([], []) ∧
    process_event cfgC7 [] bodyC7b = some ([], []) :=
  ⟨c7_filtered_records_have_no_effect cfgC7 [] bodyC7
      (Or.inr ⟨by decide, by decide⟩),
    c7_filtered_records_have_no_effect cfgC7 [] bodyC7b (Or.inl (by decide))⟩

/-- C8: the classifier and the debounce-timer callback are total: on every
well-typed record and store they return a result (`isSome`), in particular no
division by a zero run length is ever reached (`fdiv`, which models Python
division and fails on a zero divisor, is only evaluated under the positive
run-length guards). -/
theorem c8_classifier_total (cfg : Config) (st : Store) (body : Record)
    (did : String) :
    (process_event cfg st body).isSome = true ∧
    (confirm_pause st did).isSome = true :=
  ⟨process_event_isSome cfg st body, confirm_pause_isSome st did⟩

/-- C9: with a non-empty configured allow-list, a record whose `DeviceName`
is absent or strips to the empty string is dropped without effect — whatever
the store holds for its device id — because the filter tests the name carried
by the record (the parsed allow-list never contains the empty string). -/
theorem c9_absent_name_dropped_under_allowlist (thr : ℚ) (raw : String)
    (st : Store) (body : Record)
    (hne : parseAllowedDevices raw ≠ [])
    (hname : body.DeviceName = none ∨ pyStrip (body.DeviceName.getD "") = "") :
    process_event ⟨thr, parseAllowedDevices raw⟩ st body = some (st, []) := by
  apply process_event_drop
  by_cases hd : body.DeviceId.getD "" = ""
  · exact .inl hd
  · refine .inr ⟨hne, ?_⟩
    have hstrip : pyStrip (body.DeviceName.getD "") = "" := by
      rcases hname with h | h
      · rw [h]
        rfl
      · exact h
    rw [hstrip, show pyLower "" = "" from rfl]
    simpa using empty_not_mem_parseAllowedDevices raw

def sessC9 : Session := { device_id := "d9", device_name := "Living TV" }

def bodyC9 : Record :=
  { NotificationType := some "PlaybackProgress", DeviceId := some "d9",
    DeviceName := some "   " }

/-- C9 witness: with allow-list parsed from "Living TV", a record whose name
strips to empty is dropped even though a session with an allowed stored name
exists for its device id. -/
theorem c9_witness :
    process_event ⟨95, parseAllowedDevices "Living TV"⟩ [("d9", sessC9)]
        bodyC9 = some ([("d9", sessC9)], []) :=
  c9_absent_name_dropped_under_allowlist 95 "Living TV" [("d9", sessC9)]
    bodyC9 (by decide) (Or.inr (by decide))

/-! ## Frame lemmas: which fields each dispatch branch can touch -/

lemma resume_rule_frame {s s' : Session} {es : List Event}
    (h : resume_rule s = some (s', es)) :
    s'.device_name = s.device_name ∧ s'.client_name = s.client_name ∧
    s'.media_name = s.media_name ∧ s'.media_type = s.media_type ∧
    s'.run_time_ticks = s.run_time_ticks ∧ s'.item_id = s.item_id ∧
    s'.media_end_emitted = s.media_end_emitted ∧
    s'.last_position_ticks = s.last_position_ticks ∧
    s'.device_id = s.device_id := by
  simp only [resume_rule] at h
  split at h
  · cases h
    simp
  · split at h
    · split at h
      · cases h
        simp
      · rw [emit_eq] at h
        simp only [Option.map_some'] at h
        cases h
        simp
    · cases h
      simp

lemma pause_rule_frame {s s' : Session} {es : List Event}
    (h : pause_rule s = some (s', es)) :
    s'.device_name = s.device_name ∧ s'.client_name = s.client_name ∧
    s'.media_name = s.media_name ∧ s'.media_type = s.media_type ∧
    s'.run_time_ticks = s.run_time_ticks ∧ s'.item_id = s.item_id ∧
    s'.media_end_emitted = s.media_end_emitted ∧
    s'.last_position_ticks = s.last_position_ticks ∧
    s'.state = s.state ∧
    s'.device_id = s.device_id := by
  simp only [pause_rule] at h
  split at h <;> cases h <;> simp

lemma handle_progress_frame {cfg : Config} {ip : Bool} {p : Int}
    {s s' : Session} {es : List Event}
    (h : handle_progress cfg ip p s = some (s', es)) :
    s'.device_name = s.device_name ∧ s'.client_name = s.client_name ∧
    s'.media_name = s.media_name ∧ s'.media_type = s.media_type ∧
    s'.run_time_ticks = s.run_time_ticks ∧ s'.item_id = s.item_id ∧
    s'.device_id = s.device_id := by
  simp only [handle_progress] at h
  obtain ⟨reset, hr, h⟩ := Option.bind_eq_some.mp h
  obtain ⟨fire, he, h⟩ := Option.bind_eq_some.mp h
  clear hr he
  cases fire with
  | true =>
    rw [if_pos rfl, emit_eq] at h
    simp only [Option.map_some'] at h
    cases h
    cases reset <;> simp
  | false =>
    rw [if_neg (by simp)] at h
    split at h
    · have hf := resume_rule_frame h
      revert hf
      cases reset <;> simp <;> exact fun a b c d e f g h i => ⟨a, b, c, d, e, f, i⟩
    · have hf := pause_rule_frame h
      revert hf
      cases reset <;> simp <;> exact fun a b c d e f g h i j => ⟨a, b, c, d, e, f, j⟩

/-- Metadata after the classifier: each descriptive field is `body.get(key,
previous)`; the run length keeps the previous value only when the record's
value is absent or zero.  No dispatch branch touches these fields again. -/
lemma process_locked_meta {cfg : Config} {body : Record} {s0 s' : Session}
    {es : List Event} (h : process_locked cfg body s0 = some (s', es)) :
    s'.device_name = body.DeviceName.getD s0.device_name ∧
    s'.client_name = body.ClientName.getD s0.client_name ∧
    s'.media_name = body.Name.getD s0.media_name ∧
    s'.media_type = body.ItemType.getD s0.media_type ∧
    s'.run_time_ticks =
      (if body.RunTimeTicks.getD 0 = 0 then s0.run_time_ticks
       else body.RunTimeTicks.getD 0) := by
  simp only [process_locked] at h
  split at h
  · rw [handle_start_eq] at h
    cases h
    simp [update_metadata_device_name, update_metadata_client_name,
      update_metadata_media_name, update_metadata_media_type,
      update_metadata_run_time]
  · split at h
    · rw [handle_stop_eq] at h
      cases h
      simp [update_metadata_device_name, update_metadata_client_name,
        update_metadata_media_name, update_metadata_media_type,
        update_metadata_run_time]
    · split at h
      · cases h
        simp [update_metadata_device_name, update_metadata_client_name,
          update_metadata_media_name, update_metadata_media_type,
          update_metadata_run_time]
      · obtain ⟨h1, h2, h3, h4, h5, -, -⟩ := handle_progress_frame h
        rw [h1, h2, h3, h4, h5]
        simp [update_metadata_device_name, update_metadata_client_name,
          update_metadata_media_name, update_metadata_media_type,
          update_metadata_run_time]

def sessC6 : Session :=
  { device_id := "d6", device_name := "Living TV", state := "playing" }

def bodyC6 : Record :=
  { NotificationType := some "PlaybackProgress", DeviceId := some "d6",
    DeviceName := some "" }

/-- C6 counterexample: a record that carries `DeviceName` present but empty
overwrites the previously known non-empty device name with the empty string,
so a present-but-empty value does not persist the old value as claimed. -/
theorem c6_counterexample :
    process_event ⟨95, []⟩ [("d6", sessC6)] bodyC6 =
      some ([("d6", { sessC6 with device_name := "" })], []) ∧
    sessC6.device_name = "Living TV" ∧
    ({ sessC6 with device_name := "" } : Session).device_name = "" := by
  refine ⟨by decide, rfl, rfl⟩

/-- C6 (amended): a descriptive metadata field persists exactly when the
record omits it; a present value — including an empty string — overwrites it.
The run length is the exception: it also persists when the record carries a
zero value. -/
theorem c6_metadata_update (cfg : Config) (st : Store) (body : Record)
    (s : Session)
    (hdid : body.DeviceId.getD "" ≠ "")
    (hallow : cfg.allowed_devices ≠ [] →
      cfg.allowed_devices.contains
        (pyLower (pyStrip (body.DeviceName.getD ""))) = true)
    (hs : st.get? (body.DeviceId.getD "") = some s) :
    ∃ st' es s', process_event cfg st body = some (st', es) ∧
      st'.get? (body.DeviceId.getD "") = some s' ∧
      s'.device_name = body.DeviceName.getD s.device_name ∧
      s'.client_name = body.ClientName.getD s.client_name ∧
      s'.media_name = body.Name.getD s.media_name ∧
      s'.media_type = body.ItemType.getD s.media_type ∧
      s'.run_time_ticks =
        (if body.RunTimeTicks.getD 0 = 0 then s.run_time_ticks
         else body.RunTimeTicks.getD 0) := by
  have hpe := process_event_pass cfg st body hdid hallow
  rw [hs] at hpe
  simp only [Option.getD_some] at hpe
  obtain ⟨⟨s', es⟩, hpl⟩ :=
    Option.isSome_iff_exists.mp (process_locked_isSome cfg body s)
  rw [hpl] at hpe
  simp only [Option.map_some'] at hpe
  obtain ⟨m1, m2, m3, m4, m5⟩ := process_locked_meta hpl
  exact ⟨_, es, s', hpe, Store.get?_set_self .., m1, m2, m3, m4, m5⟩

def sessC6w : Session :=
  { device_id := "d6", device_name := "Living TV", client_name := "app",
    media_name := "Movie", media_type := "Movie", run_time_ticks := 600000 }

def bodyC6w : Record :=
  { NotificationType := some "PlaybackProgress", DeviceId := some "d6",
    Name := some "Other Movie", RunTimeTicks := some 0 }

/-- C6 witness: omitted fields and a zero run length persist; the present
media name is overwritten. -/
theorem c6_witness :
    ∃ st' es s',
      process_event ⟨95, []⟩ [("d6", sessC6w)] bodyC6w = some (st', es) ∧
      st'.get? "d6" = some s' ∧
      s'.device_name = (bodyC6w.DeviceName).getD sessC6w.device_name ∧
      s'.client_name = (bodyC6w.ClientName).getD sessC6w.client_name ∧
      s'.media_name = (bodyC6w.Name).getD sessC6w.media_name ∧
      s'.media_type = (bodyC6w.ItemType).getD sessC6w.media_type ∧
      s'.run_time_ticks =
        (if bodyC6w.RunTimeTicks.getD 0 = 0 then sessC6w.run_time_ticks
         else bodyC6w.RunTimeTicks.getD 0) :=
  c6_metadata_update ⟨95, []⟩ [("d6", sessC6w)] bodyC6w sessC6w
    (by decide) (by decide) (by decide)

def cfgC5 : Config := { credits_threshold_pct := 95, allowed_devices := [] }

def bodyC5 : Record :=
  { NotificationType := some "SessionEnded", DeviceId := some "d5",
    DeviceName := some "TV", ItemId := some "item-1" }

def sessC5 : Session :=
  { device_id := "d5", device_name := "TV", item_id := "item-1" }

/-- C5 counterexample: a record of an unrecognized notification type that
passes the filters is not ignored — on an empty store it creates a session,
stores the record's metadata and adopts its item identifier (no event is
emitted, but the store changes). -/
theorem c5_counterexample :
    process_event cfgC5 [] bodyC5 = some ([("d5", sessC5)], []) ∧
    Store.get? [] "d5" = none := by
  exact ⟨by decide, rfl⟩

/-- C5 (amended): a record of a notification type other than
`PlaybackStart`/`PlaybackStop`/`PlaybackProgress` that passes the filters
emits nothing and runs no dispatch rule, but the shared bookkeeping still
happens: the session is created if absent, the metadata update is applied,
and a differing item identifier is adopted (canceling any pending debounce
and clearing `media_end_emitted`). -/
theorem c5_unknown_type_updates_but_never_emits (cfg : Config) (st : Store)
    (body : Record)
    (hdid : body.DeviceId.getD "" ≠ "")
    (hallow : cfg.allowed_devices ≠ [] →
      cfg.allowed_devices.contains
        (pyLower (pyStrip (body.DeviceName.getD ""))) = true)
    (h1 : body.NotificationType.getD "" ≠ "PlaybackStart")
    (h2 : body.NotificationType.getD "" ≠ "PlaybackStop")
    (h3 : body.NotificationType.getD "" ≠ "PlaybackProgress") :
    process_event cfg st body =
      some (st.set (body.DeviceId.getD "")
        (adopt_item
          (update_metadata
            ((st.get? (body.DeviceId.getD "")).getD
              { device_id := body.DeviceId.getD "" }) body)
          (body.ItemId.getD "")), []) := by
  rw [process_event_pass cfg st body hdid hallow]
  simp only [process_locked, if_neg h1, if_neg h2, if_pos h3]
  rfl

def sessC5w : Session :=
  { device_id := "d5", device_name := "TV", item_id := "old-item",
    media_end_emitted := true, state := "playing",
    pause_timer := true, debouncing := true }

def bodyC5w : Record :=
  { NotificationType := some "SessionEnded", DeviceId := some "d5",
    ItemId := some "new-item" }

/-- C5 witness: an unrecognized type on an existing session adopts the new
item id, cancels the debounce and clears the flag, emitting nothing. -/
theorem c5_witness :
    process_event cfgC5 [("d5", sessC5w)] bodyC5w =
      some ([("d5",
        adopt_item (update_metadata sessC5w bodyC5w) "new-item")], []) :=
  c5_unknown_type_updates_but_never_emits cfgC5 [("d5", sessC5w)] bodyC5w
    (by decide) (by decide) (by decide) (by decide) (by decide)

def sessC10 : Session :=
  { device_id := "dA", item_id := "A", media_end_emitted := true }

def bodyC10 : Record :=
  { NotificationType := some "PlaybackStop", DeviceId := some "dA",
    ItemId := some "B" }

/-- C10 counterexample: a `PlaybackStop` record carrying a different item
identifier does not leave `item_id` and `media_end_emitted` unchanged — the
pre-dispatch item-adoption step adopts the new id and clears the flag. -/
theorem c10_counterexample :
    process_event ⟨95, []⟩ [("dA", sessC10)] bodyC10 =
      some ([("dA", { device_id := "dA", item_id := "B", state := "idle" })],
        [{ event := "PlaybackStop", device := "", client := "", media := "",
           media_type := "", position_pct := 0 }]) ∧
    sessC10.item_id = "A" ∧ sessC10.media_end_emitted = true := by
  exact ⟨by decide, rfl, rfl⟩

/-- C10 (amended): provided the stop record does not carry a new item
identifier, processing it changes only the recorded position, the state (to
`idle`), the debounce timer/flag and the metadata fields, and leaves
`item_id` and `media_end_emitted` unchanged — so a set flag keeps suppressing
`play` for the same item after the stop. -/
theorem c10_stop_preserves_item_and_flag (cfg : Config) (st : Store)
    (body : Record) (s : Session)
    (hdid : body.DeviceId.getD "" ≠ "")
    (hallow : cfg.allowed_devices ≠ [] →
      cfg.allowed_devices.contains
        (pyLower (pyStrip (body.DeviceName.getD ""))) = true)
    (hs : st.get? (body.DeviceId.getD "") = some s)
    (hty : body.NotificationType.getD "" = "PlaybackStop")
    (hitem : body.ItemId.getD "" = "" ∨ body.ItemId.getD "" = s.item_id) :
    ∃ s', process_event cfg st body =
        some (st.set (body.DeviceId.getD "") s',
          [payload "PlaybackStop" s']) ∧
      s'.item_id = s.item_id ∧
      s'.media_end_emitted = s.media_end_emitted ∧
      s'.state = "idle" ∧
      s'.last_position_ticks = body.PlaybackPositionTicks.getD 0 ∧
      s'.pause_timer = false ∧ s'.debouncing = false ∧
      s'.device_name = body.DeviceName.getD s.device_name ∧
      s'.client_name = body.ClientName.getD s.client_name ∧
      s'.media_name = body.Name.getD s.media_name ∧
      s'.media_type = body.ItemType.getD s.media_type ∧
      s'.run_time_ticks =
        (if body.RunTimeTicks.getD 0 = 0 then s.run_time_ticks
         else body.RunTimeTicks.getD 0) ∧
      s'.device_id = s.device_id := by
  have hpe := process_event_pass cfg st body hdid hallow
  rw [hs] at hpe
  simp only [Option.getD_some] at hpe
  have hadopt : adopt_item (update_metadata s body) (body.ItemId.getD "") =
      update_metadata s body := by
    apply adopt_item_of_same
    rcases hitem with h | h
    · exact .inl h
    · exact .inr (by rw [h, update_metadata_item_id])
  rw [show process_locked cfg body s =
      handle_stop (body.PlaybackPositionTicks.getD 0)
        (adopt_item (update_metadata s body) (body.ItemId.getD "")) by
    simp only [process_locked, hty]
    rfl] at hpe
  rw [hadopt, handle_stop_eq] at hpe
  simp only [Option.map_some'] at hpe
  refine ⟨_, hpe, ?_, ?_, rfl, rfl, rfl, rfl, ?_, ?_, ?_, ?_, ?_, ?_⟩ <;>
    simp [update_metadata_device_name, update_metadata_client_name,
      update_metadata_media_name, update_metadata_media_type,
      update_metadata_run_time]

def sessC10w : Session :=
  { device_id := "dA", item_id := "A", media_end_emitted := true,
    state := "playing", run_time_ticks := 600000,
    pause_timer := true, debouncing := true }

def bodyC10w : Record :=
  { NotificationType := some "PlaybackStop", DeviceId := some "dA",
    ItemId := some "A", PlaybackPositionTicks := some 590000 }

/-- C10 witness: a stop for the same item keeps `item_id = "A"` and the set
`media_end_emitted` flag, while idling the state and clearing the debounce. -/
theorem c10_witness :
    ∃ s', process_event ⟨95, []⟩ [("dA", sessC10w)] bodyC10w =
        some (Store.set [("dA", sessC10w)] "dA" s',
          [payload "PlaybackStop" s']) ∧
      s'.item_id = sessC10w.item_id ∧
      s'.media_end_emitted = sessC10w.media_end_emitted ∧
      s'.state = "idle" ∧
      s'.last_position_ticks = bodyC10w.PlaybackPositionTicks.getD 0 ∧
      s'.pause_timer = false ∧ s'.debouncing = false ∧
      s'.device_name = bodyC10w.DeviceName.getD sessC10w.device_name ∧
      s'.client_name = bodyC10w.ClientName.getD sessC10w.client_name ∧
      s'.media_name = bodyC10w.Name.getD sessC10w.media_name ∧
      s'.media_type = bodyC10w.ItemType.getD sessC10w.media_type ∧
      s'.run_time_ticks =
        (if bodyC10w.RunTimeTicks.getD 0 = 0 then sessC10w.run_time_ticks
         else bodyC10w.RunTimeTicks.getD 0) ∧
      s'.device_id = sessC10w.device_id :=
  c10_stop_preserves_item_and_flag ⟨95, []⟩ [("dA", sessC10w)] bodyC10w
    sessC10w (by decide) (by decide) (by decide) (by decide)
    (Or.inr (by decide))

/-- C1: for a `PlaybackProgress` with `is_paused=false` that passes the
filters, adopts no new item, triggers neither credits rule, and meets no
debounce in progress: `play` is emitted with a transition to `playing` iff
the prior state was `paused` or `idle` and `media_end_emitted` was false;
a set `media_end_emitted` suppresses the emission and leaves the state as it
was (idle stays idle); a state already `playing` yields no emission and no
transition, so `play` is never emitted while already `playing`. -/
theorem c1_resume_emits_play_iff (cfg : Config) (st : Store) (body : Record)
    (s : Session)
    (hdid : body.DeviceId.getD "" ≠ "")
    (hallow : cfg.allowed_devices ≠ [] →
      cfg.allowed_devices.contains
        (pyLower (pyStrip (body.DeviceName.getD ""))) = true)
    (hs : st.get? (body.DeviceId.getD "") = some s)
    (hty : body.NotificationType.getD "" = "PlaybackProgress")
    (hpaused : body.IsPaused.getD false = false)
    (hdeb : s.debouncing = false)
    (hitem : body.ItemId.getD "" = "" ∨ body.ItemId.getD "" = s.item_id)
    (hreset : credits_reset_check cfg.credits_threshold_pct
      { update_metadata s body with
        last_position_ticks := body.PlaybackPositionTicks.getD 0 }
      (body.PlaybackPositionTicks.getD 0) = some false)
    (hend : credits_end_check cfg.credits_threshold_pct
      { update_metadata s body with
        last_position_ticks := body.PlaybackPositionTicks.getD 0 }
      (body.PlaybackPositionTicks.getD 0) = some false) :
    ∃ s' es, process_event cfg st body =
        some (st.set (body.DeviceId.getD "") s', es) ∧
      (((∃ e ∈ es, e.event = "play") ∧ s'.state = "playing") ↔
        ((s.state = "paused" ∨ s.state = "idle") ∧
          s.media_end_emitted = false)) ∧
      (s.media_end_emitted = true → es = [] ∧ s'.state = s.state ∧
        (s.state = "idle" → s'.state = "idle")) ∧
      (s.state = "playing" → es = [] ∧ s'.state = "playing") ∧
      (s.state = "playing" → ∀ e ∈ es, e.event ≠ "play") := by
  have hpe := process_event_pass cfg st body hdid hallow
  rw [hs] at hpe
  simp only [Option.getD_some] at hpe
  have hadopt : adopt_item (update_metadata s body) (body.ItemId.getD "") =
      update_metadata s body := by
    apply adopt_item_of_same
    rcases hitem with h | h
    · exact .inl h
    · exact .inr (by rw [h, update_metadata_item_id])
  rw [show process_locked cfg body s =
      handle_progress cfg (body.IsPaused.getD false)
        (body.PlaybackPositionTicks.getD 0)
        (adopt_item (update_metadata s body) (body.ItemId.getD "")) by
    simp only [process_locked, hty]
    rfl] at hpe
  rw [hadopt,
    handle_progress_no_credits cfg _ _ _ hreset hend, hpaused, if_pos rfl]
    at hpe
  by_cases hplay : s.state = "playing"
  · rw [resume_rule_playing (by simp [hdeb]) (by simp [hplay])] at hpe
    simp only [Option.map_some'] at hpe
    refine ⟨_, [], hpe, ?_, ?_, ?_, ?_⟩
    · simp [hplay]
    · intro hm
      simp [hplay]
    · intro hm
      simp [hplay]
    · intro hm
      simp
  · by_cases hio : s.state = "paused" ∨ s.state = "idle"
    · by_cases hme : s.media_end_emitted = true
      · rw [resume_rule_suppressed (by simp [hdeb]) (by simp [hio])
          (by simp [hme])] at hpe
        simp only [Option.map_some'] at hpe
        refine ⟨_, [], hpe, ?_, ?_, ?_, ?_⟩
        · simp [hio, hme]
        · intro hm
          refine ⟨rfl, by simp, fun hi => by simp [hi]⟩
        · intro hm
          exact absurd hm hplay
        · intro hm
          exact absurd hm hplay
      · rw [resume_rule_play (by simp [hdeb]) (by simp [hio])
          (by simpa using hme)] at hpe
        simp only [Option.map_some'] at hpe
        have hme' : s.media_end_emitted = false := by simpa using hme
        refine ⟨_, _, hpe, ?_, ?_, ?_, ?_⟩
        · simp [payload, hio, hme']
        · intro hm
          exact absurd hm hme
        · intro hm
          exact absurd hm hplay
        · intro hm
          exact absurd hm hplay
    · rw [show resume_rule { update_metadata s body with
          last_position_ticks := body.PlaybackPositionTicks.getD 0 } =
          some ({ update_metadata s body with
            last_position_ticks := body.PlaybackPositionTicks.getD 0 }, [])
        from by
          simp only [resume_rule]
          rw [if_neg (by simp [hdeb]), if_neg (by simpa using hio)]] at hpe
      simp only [Option.map_some'] at hpe
      refine ⟨_, [], hpe, ?_, ?_, ?_, ?_⟩
      · simp [hio]
      · intro hm
        refine ⟨rfl, by simp, fun hi => absurd (.inr hi) hio⟩
      · intro hm
        exact absurd hm hplay
      · intro hm
        exact absurd hm hplay

def sessC1w : Session := { device_id := "d1", state := "idle" }

def bodyC1w : Record :=
  { NotificationType := some "PlaybackProgress", DeviceId := some "d1",
    IsPaused := some false, PlaybackPositionTicks := some 300000,
    RunTimeTicks := some 600000 }

/-- C1 witness: from `idle` with the flag clear, the concrete resume record
emits `play` and moves to `playing`. -/
theorem c1_witness :
    ∃ s' es, process_event ⟨95, []⟩ [("d1", sessC1w)] bodyC1w =
        some (Store.set [("d1", sessC1w)] "d1" s', es) ∧
      (((∃ e ∈ es, e.event = "play") ∧ s'.state = "playing") ↔
        ((sessC1w.state = "paused" ∨ sessC1w.state = "idle") ∧
          sessC1w.media_end_emitted = false)) ∧
      (sessC1w.media_end_emitted = true → es = [] ∧
        s'.state = sessC1w.state ∧
        (sessC1w.state = "idle" → s'.state = "idle")) ∧
      (sessC1w.state = "playing" → es = [] ∧ s'.state = "playing") ∧
      (sessC1w.state = "playing" → ∀ e ∈ es, e.event ≠ "play") :=
  c1_resume_emits_play_iff ⟨95, []⟩ [("d1", sessC1w)] bodyC1w sessC1w
    (by decide) (by decide) (by decide) (by decide) (by decide) (by decide)
    (Or.inl (by decide))
    (credits_reset_check_of_not_emitted _ _ rfl)
    (credits_end_check_false_of_lt (Or.inr (by norm_num [sessC1w, bodyC1w,
      update_metadata])))

lemma adopt_item_media_end_false {s : Session} (it : String)
    (h : s.media_end_emitted = false) :
    (adopt_item s it).media_end_emitted = false := by
  unfold adopt_item
  split <;> simp [h]

/-- The resume block emits either nothing or exactly one `play`, the latter
only when `media_end_emitted` is clear. -/
lemma resume_rule_events {s s' : Session} {es : List Event}
    (h : resume_rule s = some (s', es)) :
    es = [] ∨ (s.media_end_emitted = false ∧
      es = [payload "play" { s with state := "playing" }]) := by
  simp only [resume_rule] at h
  split at h
  · cases h
    exact .inl rfl
  · split at h
    · split at h
      · cases h
        exact .inl rfl
      · rw [emit_eq] at h
        simp only [Option.map_some'] at h
        cases h
        rename_i hm
        exact .inr ⟨by simpa using hm, rfl⟩
    · cases h
      exact .inl rfl

lemma pause_rule_events {s s' : Session} {es : List Event}
    (h : pause_rule s = some (s', es)) : es = [] := by
  simp only [pause_rule] at h
  split at h <;> cases h <;> rfl

/-! ## The credits threshold at run_length 600000, threshold 95 -/

lemma pct_ge_95 {p : Int} (hp : 570000 ≤ p) :
    (95 : ℚ) ≤ (p : ℚ) / ((600000 : Int) : ℚ) * 100 := by
  have hq : (570000 : ℚ) ≤ (p : ℚ) := by exact_mod_cast hp
  have h6 : ((600000 : Int) : ℚ) = 600000 := by norm_num
  rw [h6, div_mul_eq_mul_div, le_div_iff₀ (by norm_num : (0 : ℚ) < 600000)]
  linarith

lemma pct_lt_95 {p : Int} (hp : p < 570000) :
    (p : ℚ) / ((600000 : Int) : ℚ) * 100 < 95 := by
  have hq : (p : ℚ) < 570000 := by exact_mod_cast hp
  have h6 : ((600000 : Int) : ℚ) = 600000 := by norm_num
  rw [h6, div_mul_eq_mul_div, div_lt_iff₀ (by norm_num : (0 : ℚ) < 600000)]
  linarith

lemma c2a_below_threshold_no_media_end (A : List String) (st : Store)
    (body : Record) {st' : Store} {es : List Event}
    (hty : body.NotificationType.getD "" = "PlaybackProgress")
    (hrun : body.RunTimeTicks = some 600000)
    (hpos : body.PlaybackPositionTicks = some 560000)
    (hev : process_event ⟨95, A⟩ st body = some (st', es)) :
    ∀ e ∈ es, e.event ≠ "media_end" := by
  by_cases hdrop : body.DeviceId.getD "" = "" ∨
      ((A : List String) ≠ [] ∧
        A.contains (pyLower (pyStrip (body.DeviceName.getD ""))) = false)
  · rw [process_event_drop ⟨95, A⟩ st body hdrop] at hev
    cases hev
    simp
  · obtain ⟨hdid, hal⟩ := not_or.mp hdrop
    have hallow : (A : List String) ≠ [] →
        A.contains (pyLower (pyStrip (body.DeviceName.getD ""))) = true := by
      intro hne
      cases hc : A.contains (pyLower (pyStrip (body.DeviceName.getD "")))
      · exact absurd ⟨hne, hc⟩ hal
      · rfl
    have hpe := process_event_pass ⟨95, A⟩ st body hdid hallow
    set s0 := (st.get? (body.DeviceId.getD "")).getD
      { device_id := body.DeviceId.getD "" } with hs0
    obtain ⟨⟨s1, es1⟩, hpl⟩ :=
      Option.isSome_iff_exists.mp (process_locked_isSome ⟨95, A⟩ body s0)
    rw [hpl] at hpe
    simp only [Option.map_some'] at hpe
    rw [hev, Option.some_inj, Prod.mk.injEq] at hpe
    obtain ⟨-, rfl⟩ := hpe
    rw [show process_locked ⟨95, A⟩ body s0 =
        handle_progress ⟨95, A⟩ (body.IsPaused.getD false)
          (body.PlaybackPositionTicks.getD 0)
          (adopt_item (update_metadata s0 body) (body.ItemId.getD "")) from by
      simp only [process_locked, hty]
      rfl] at hpl
    rw [hpos] at hpl
    simp only [Option.getD_some] at hpl
    set sm := adopt_item (update_metadata s0 body) (body.ItemId.getD "")
      with hsm
    have hrunm : sm.run_time_ticks = 600000 := by
      rw [hsm]
      simp [update_metadata_run_time, hrun]
    by_cases hf : sm.media_end_emitted = true
    · have h1 : credits_reset_check (95 : ℚ)
          { sm with last_position_ticks := (560000 : Int) } 560000 =
          some true :=
        credits_reset_check_true_of (by simpa using hf)
          (by dsimp only; rw [hrunm]; norm_num)
          (by dsimp only; rw [hrunm]; exact pct_lt_95 (by norm_num))
      have h2 : credits_end_check (95 : ℚ)
          { sm with
            last_position_ticks := (560000 : Int),
            media_end_emitted := false } 560000 = some false :=
        credits_end_check_false_of_lt
          (Or.inr (by dsimp only; rw [hrunm]; exact pct_lt_95 (by norm_num)))
      rw [handle_progress_reset ⟨95, A⟩ (body.IsPaused.getD false) 560000 sm
        h1 h2] at hpl
      split at hpl
      · rcases resume_rule_events hpl with rfl | ⟨-, rfl⟩
        · simp
        · simp [payload]
      · obtain rfl := pause_rule_events hpl
        simp
    · have hf' : sm.media_end_emitted = false := by simpa using hf
      have h1 : credits_reset_check (95 : ℚ)
          { sm with last_position_ticks := (560000 : Int) } 560000 =
          some false :=
        credits_reset_check_of_not_emitted _ _ (by simpa using hf')
      have h2 : credits_end_check (95 : ℚ)
          { sm with last_position_ticks := (560000 : Int) } 560000 =
          some false :=
        credits_end_check_false_of_lt
          (Or.inr (by dsimp only; rw [hrunm]; exact pct_lt_95 (by norm_num)))
      rw [handle_progress_no_credits ⟨95, A⟩ (body.IsPaused.getD false) 560000
        sm h1 h2] at hpl
      split at hpl
      · rcases resume_rule_events hpl with rfl | ⟨-, rfl⟩
        · simp
        · simp [payload]
      · obtain rfl := pause_rule_events hpl
        simp

/-- A `PlaybackProgress` record passing the filters runs `handle_progress` on
the session after metadata update and item adoption. -/
lemma process_event_progress (cfg : Config) (st : Store) (body : Record)
    (hdid : body.DeviceId.getD "" ≠ "")
    (hallow : cfg.allowed_devices ≠ [] →
      cfg.allowed_devices.contains
        (pyLower (pyStrip (body.DeviceName.getD ""))) = true)
    (hty : body.NotificationType.getD "" = "PlaybackProgress") :
    process_event cfg st body =
      (handle_progress cfg (body.IsPaused.getD false)
        (body.PlaybackPositionTicks.getD 0)
        (adopt_item
          (update_metadata
            ((st.get? (body.DeviceId.getD "")).getD
              { device_id := body.DeviceId.getD "" }) body)
          (body.ItemId.getD ""))).map
        (fun q => (st.set (body.DeviceId.getD "") q.1, q.2)) := by
  rw [process_event_pass cfg st body hdid hallow]
  rw [show process_locked cfg body
      ((st.get? (body.DeviceId.getD "")).getD
        { device_id := body.DeviceId.getD "" }) =
      handle_progress cfg (body.IsPaused.getD false)
        (body.PlaybackPositionTicks.getD 0)
        (adopt_item
          (update_metadata
            ((st.get? (body.DeviceId.getD "")).getD
              { device_id := body.DeviceId.getD "" }) body)
          (body.ItemId.getD "")) from by
    simp only [process_locked, hty]
    rfl]

lemma c2b_detection_fires (A : List String) (st : Store) (body : Record)
    (p : Int)
    (hty : body.NotificationType.getD "" = "PlaybackProgress")
    (hrun : body.RunTimeTicks = some 600000)
    (hpos : body.PlaybackPositionTicks = some p)
    (hp : 570000 ≤ p)
    (hdid : body.DeviceId.getD "" ≠ "")
    (hallow : (A : List String) ≠ [] →
      A.contains (pyLower (pyStrip (body.DeviceName.getD ""))) = true)
    (hflag : ∀ t, st.get? (body.DeviceId.getD "") = some t →
      t.media_end_emitted = false) :
    ∃ s', process_event ⟨95, A⟩ st body =
        some (st.set (body.DeviceId.getD "") s', [payload "media_end" s']) ∧
      s'.media_end_emitted = true ∧ s'.state = "idle" ∧
      s'.pause_timer = false ∧ s'.debouncing = false := by
  rw [process_event_progress ⟨95, A⟩ st body hdid hallow hty, hpos]
  simp only [Option.getD_some]
  set s0 := (st.get? (body.DeviceId.getD "")).getD
    { device_id := body.DeviceId.getD "" } with hs0def
  set sm := adopt_item (update_metadata s0 body) (body.ItemId.getD "")
    with hsmdef
  have hs0 : s0.media_end_emitted = false := by
    rw [hs0def]
    cases hget : st.get? (body.DeviceId.getD "") with
    | none => rfl
    | some t =>
      simp only [Option.getD_some]
      exact hflag t hget
  have hsm : sm.media_end_emitted = false := by
    rw [hsmdef]
    exact adopt_item_media_end_false _ (by simp [hs0])
  have hrunm : sm.run_time_ticks = 600000 := by
    rw [hsmdef]
    simp [update_metadata_run_time, hrun]
  have h1 : credits_reset_check (95 : ℚ)
      { sm with last_position_ticks := p } p = some false :=
    credits_reset_check_of_not_emitted _ _ (by simpa using hsm)
  have h2 : credits_end_check (95 : ℚ)
      { sm with last_position_ticks := p } p = some true :=
    credits_end_check_true_of (by simpa using hsm)
      (by dsimp only; rw [hrunm]; norm_num)
      (by dsimp only; rw [hrunm]; exact pct_ge_95 hp)
  rw [handle_progress_fire ⟨95, A⟩ (body.IsPaused.getD false) p sm h1 h2]
  simp only [Option.map_some']
  exact ⟨_, rfl, rfl, rfl, rfl, rfl⟩

lemma c2c_media_end_suppressed (A : List String) (st : Store) (body : Record)
    (p : Int) (s : Session)
    (hty : body.NotificationType.getD "" = "PlaybackProgress")
    (hrun : body.RunTimeTicks = some 600000)
    (hpos : body.PlaybackPositionTicks = some p)
    (hp : 570000 ≤ p)
    (hdid : body.DeviceId.getD "" ≠ "")
    (hallow : (A : List String) ≠ [] →
      A.contains (pyLower (pyStrip (body.DeviceName.getD ""))) = true)
    (hs : st.get? (body.DeviceId.getD "") = some s)
    (hflag : s.media_end_emitted = true)
    (hitem : body.ItemId.getD "" = "" ∨ body.ItemId.getD "" = s.item_id) :
    ∃ s', process_event ⟨95, A⟩ st body =
        some (st.set (body.DeviceId.getD "") s', []) ∧
      s'.media_end_emitted = true := by
  rw [process_event_progress ⟨95, A⟩ st body hdid hallow hty, hpos, hs]
  simp only [Option.getD_some]
  have hadopt : adopt_item (update_metadata s body) (body.ItemId.getD "") =
      update_metadata s body := by
    apply adopt_item_of_same
    rcases hitem with h | h
    · exact .inl h
    · exact .inr (by rw [h, update_metadata_item_id])
  rw [hadopt]
  have hrunm : (update_metadata s body).run_time_ticks = 600000 := by
    simp [update_metadata_run_time, hrun]
  have h1 : credits_reset_check (95 : ℚ)
      { update_metadata s body with last_position_ticks := p } p =
      some false :=
    credits_reset_check_false_of_ge
      (Or.inr (by dsimp only; rw [hrunm]; exact pct_ge_95 hp))
  have h2 : credits_end_check (95 : ℚ)
      { update_metadata s body with last_position_ticks := p } p =
      some false :=
    credits_end_check_of_emitted _ _ (by simp [hflag])
  rw [handle_progress_no_credits ⟨95, A⟩ (body.IsPaused.getD false) p
    (update_metadata s body) h1 h2]
  split
  · obtain ⟨⟨s', es'⟩, hrr⟩ := Option.isSome_iff_exists.mp
      (resume_rule_isSome
        { update_metadata s body with last_position_ticks := p })
    rcases resume_rule_events hrr with hes | ⟨hff, -⟩
    · subst hes
      rw [hrr]
      simp only [Option.map_some']
      obtain ⟨-, -, -, -, -, -, hmep, -, -⟩ := resume_rule_frame hrr
      exact ⟨s', rfl, by rw [hmep]; simp [hflag]⟩
    · rw [show ({ update_metadata s body with
          last_position_ticks := p } : Session).media_end_emitted =
          s.media_end_emitted from rfl, hflag] at hff
      cases hff
  · obtain ⟨⟨s', es'⟩, hpr⟩ := Option.isSome_iff_exists.mp
      (pause_rule_isSome
        { update_metadata s body with last_position_ticks := p })
    obtain rfl := pause_rule_events hpr
    rw [hpr]
    simp only [Option.map_some']
    obtain ⟨-, -, -, -, -, -, hmep, -, -, -⟩ := pause_rule_frame hpr
    exact ⟨s', rfl, by rw [hmep]; simp [hflag]⟩

lemma c2d_reset_clears_flag (A : List String) (st : Store) (body : Record)
    (p : Int) (s : Session)
    (hty : body.NotificationType.getD "" = "PlaybackProgress")
    (hrun : body.RunTimeTicks = some 600000)
    (hpos : body.PlaybackPositionTicks = some p)
    (hp : p < 570000)
    (hdid : body.DeviceId.getD "" ≠ "")
    (hallow : (A : List String) ≠ [] →
      A.contains (pyLower (pyStrip (body.DeviceName.getD ""))) = true)
    (hs : st.get? (body.DeviceId.getD "") = some s)
    (hflag : s.media_end_emitted = true)
    (hitem : body.ItemId.getD "" = "" ∨ body.ItemId.getD "" = s.item_id) :
    ∃ s' es, process_event ⟨95, A⟩ st body =
        some (st.set (body.DeviceId.getD "") s', es) ∧
      s'.media_end_emitted = false ∧
      ∀ e ∈ es, e.event ≠ "media_end" := by
  rw [process_event_progress ⟨95, A⟩ st body hdid hallow hty, hpos, hs]
  simp only [Option.getD_some]
  have hadopt : adopt_item (update_metadata s body) (body.ItemId.getD "") =
      update_metadata s body := by
    apply adopt_item_of_same
    rcases hitem with h | h
    · exact .inl h
    · exact .inr (by rw [h, update_metadata_item_id])
  rw [hadopt]
  have hrunm : (update_metadata s body).run_time_ticks = 600000 := by
    simp [update_metadata_run_time, hrun]
  have h1 : credits_reset_check (95 : ℚ)
      { update_metadata s body with last_position_ticks := p } p =
      some true :=
    credits_reset_check_true_of (by simp [hflag])
      (by dsimp only; rw [hrunm]; norm_num)
      (by dsimp only; rw [hrunm]; exact pct_lt_95 hp)
  have h2 : credits_end_check (95 : ℚ)
      { update_metadata s body with
        last_position_ticks := p,
        media_end_emitted := false } p = some false :=
    credits_end_check_false_of_lt
      (Or.inr (by dsimp only; rw [hrunm]; exact pct_lt_95 hp))
  rw [handle_progress_reset ⟨95, A⟩ (body.IsPaused.getD false) p
    (update_metadata s body) h1 h2]
  split
  · obtain ⟨⟨s', es'⟩, hrr⟩ := Option.isSome_iff_exists.mp
      (resume_rule_isSome
        { update_metadata s body with
          last_position_ticks := p, media_end_emitted := false })
    obtain ⟨-, -, -, -, -, -, hmep, -, -⟩ := resume_rule_frame hrr
    rcases resume_rule_events hrr with hes | ⟨-, hes⟩ <;> subst hes <;>
      rw [hrr] <;> simp only [Option.map_some']
    · exact ⟨s', [], rfl, by rw [hmep], by simp⟩
    · exact ⟨s', _, rfl, by rw [hmep], by simp [payload]⟩
  · obtain ⟨⟨s', es'⟩, hpr⟩ := Option.isSome_iff_exists.mp
      (pause_rule_isSome
        { update_metadata s body with
          last_position_ticks := p, media_end_emitted := false })
    obtain rfl := pause_rule_events hpr
    rw [hpr]
    simp only [Option.map_some']
    obtain ⟨-, -, -, -, -, -, hmep, -, -, -⟩ := pause_rule_frame hpr
    exact ⟨s', [], rfl, by rw [hmep], by simp⟩

/-- C2: with run length 600000 ticks and threshold 95: a progress record at
position 560000 never emits `media_end`; at any position with percentage ≥ 95
(detection uses `≥`, so from 570000 up, e.g. 571000) with the flag clear it
emits exactly one `media_end`, sets the flag, idles the state and stops
processing the record; once the flag is set, positions at or above 570000
emit nothing and keep the flag for the same item; only a position strictly
below 570000 (strictly below 95%, reset uses `<`) first clears the flag, and
that record still emits no `media_end`. -/
theorem c2_credits_threshold :
    (∀ (A : List String) (st : Store) (body : Record) (st' : Store)
        (es : List Event),
      body.NotificationType.getD "" = "PlaybackProgress" →
      body.RunTimeTicks = some 600000 →
      body.PlaybackPositionTicks = some 560000 →
      process_event ⟨95, A⟩ st body = some (st', es) →
      ∀ e ∈ es, e.event ≠ "media_end") ∧
    (∀ (A : List String) (st : Store) (body : Record) (p : Int),
      body.NotificationType.getD "" = "PlaybackProgress" →
      body.RunTimeTicks = some 600000 →
      body.PlaybackPositionTicks = some p →
      570000 ≤ p →
      body.DeviceId.getD "" ≠ "" →
      ((A : List String) ≠ [] →
        A.contains (pyLower (pyStrip (body.DeviceName.getD ""))) = true) →
      (∀ t, st.get? (body.DeviceId.getD "") = some t →
        t.media_end_emitted = false) →
      ∃ s', process_event ⟨95, A⟩ st body =
          some (st.set (body.DeviceId.getD "") s',
            [payload "media_end" s']) ∧
        s'.media_end_emitted = true ∧ s'.state = "idle" ∧
        s'.pause_timer = false ∧ s'.debouncing = false) ∧
    (∀ (A : List String) (st : Store) (body : Record) (p : Int) (s : Session),
      body.NotificationType.getD "" = "PlaybackProgress" →
      body.RunTimeTicks = some 600000 →
      body.PlaybackPositionTicks = some p →
      570000 ≤ p →
      body.DeviceId.getD "" ≠ "" →
      ((A : List String) ≠ [] →
        A.contains (pyLower (pyStrip (body.DeviceName.getD ""))) = true) →
      st.get? (body.DeviceId.getD "") = some s →
      s.media_end_emitted = true →
      (body.ItemId.getD "" = "" ∨ body.ItemId.getD "" = s.item_id) →
      ∃ s', process_event ⟨95, A⟩ st body =
          some (st.set (body.DeviceId.getD "") s', []) ∧
        s'.media_end_emitted = true) ∧
    (∀ (A : List String) (st : Store) (body : Record) (p : Int) (s : Session),
      body.NotificationType.getD "" = "PlaybackProgress" →
      body.RunTimeTicks = some 600000 →
      body.PlaybackPositionTicks = some p →
      p < 570000 →
      body.DeviceId.getD "" ≠ "" →
      ((A : List String) ≠ [] →
        A.contains (pyLower (pyStrip (body.DeviceName.getD ""))) = true) →
      st.get? (body.DeviceId.getD "") = some s →
      s.media_end_emitted = true →
      (body.ItemId.getD "" = "" ∨ body.ItemId.getD "" = s.item_id) →
      ∃ s' es, process_event ⟨95, A⟩ st body =
          some (st.set (body.DeviceId.getD "") s', es) ∧
        s'.media_end_emitted = false ∧
        ∀ e ∈ es, e.event ≠ "media_end") :=
  ⟨fun A st body st' es hty hrun hpos hev =>
      c2a_below_threshold_no_media_end A st body hty hrun hpos hev,
    fun A st body p hty hrun hpos hp hdid hallow hflag =>
      c2b_detection_fires A st body p hty hrun hpos hp hdid hallow hflag,
    fun A st body p s hty hrun hpos hp hdid hallow hs hflag hitem =>
      c2c_media_end_suppressed A st body p s hty hrun hpos hp hdid hallow
        hs hflag hitem,
    fun A st body p s hty hrun hpos hp hdid hallow hs hflag hitem =>
      c2d_reset_clears_flag A st body p s hty hrun hpos hp hdid hallow
        hs hflag hitem⟩

def sessC2a : Session := { device_id := "dw", state := "playing" }

def bodyC2a : Record :=
  { NotificationType := some "PlaybackProgress", DeviceId := some "dw",
    IsPaused := some false, PlaybackPositionTicks := some 560000,
    RunTimeTicks := some 600000 }

def sessC2a' : Session :=
  { device_id := "dw", state := "playing", run_time_ticks := 600000,
    last_position_ticks := 560000 }

lemma hevC2a :
    process_event ⟨95, []⟩ [("dw", sessC2a)] bodyC2a =
      some ([("dw", sessC2a')], []) := by
  rw [process_event_progress ⟨95, []⟩ [("dw", sessC2a)] bodyC2a
    (by decide) (fun h => absurd rfl h) rfl]
  show (handle_progress ⟨95, []⟩ false 560000
      { device_id := "dw", state := "playing",
        run_time_ticks := 600000 }).map
      (fun q => (Store.set [("dw", sessC2a)] "dw" q.1, q.2)) =
    some ([("dw", sessC2a')], [])
  rw [handle_progress_no_credits ⟨95, []⟩ false 560000
    { device_id := "dw", state := "playing", run_time_ticks := 600000 }
    (credits_reset_check_of_not_emitted _ _ rfl)
    (credits_end_check_false_of_lt (Or.inr (pct_lt_95 (by norm_num))))]
  rw [if_pos rfl, resume_rule_playing rfl rfl]
  rfl

def sessC2b : Session := { device_id := "db", state := "playing" }

def bodyC2b571 : Record :=
  { NotificationType := some "PlaybackProgress", DeviceId := some "db",
    IsPaused := some false, PlaybackPositionTicks := some 571000,
    RunTimeTicks := some 600000 }

def bodyC2b570 : Record :=
  { NotificationType := some "PlaybackProgress", DeviceId := some "db",
    IsPaused := some false, PlaybackPositionTicks := some 570000,
    RunTimeTicks := some 600000 }

def sessC2c : Session :=
  { device_id := "dc", state := "idle", media_end_emitted := true,
    item_id := "it" }

def bodyC2c570 : Record :=
  { NotificationType := some "PlaybackProgress", DeviceId := some "dc",
    IsPaused := some false, PlaybackPositionTicks := some 570000,
    RunTimeTicks := some 600000 }

def bodyC2d : Record :=
  { NotificationType := some "PlaybackProgress", DeviceId := some "dc",
    IsPaused := some false, PlaybackPositionTicks := some 569999,
    RunTimeTicks := some 600000 }

/-- C2 witness: 560000 emits nothing; 571000 and the boundary 570000 (≥) fire
`media_end` when the flag is clear; at 570000 a set flag stays set and
nothing is emitted; at 569999 (strictly below) the flag is cleared with no
`media_end`. -/
theorem c2_witness :
    (∀ e ∈ ([] : List Event), e.event ≠ "media_end") ∧
    (∃ s', process_event ⟨95, []⟩ [("db", sessC2b)] bodyC2b571 =
        some (Store.set [("db", sessC2b)] "db" s',
          [payload "media_end" s']) ∧
      s'.media_end_emitted = true ∧ s'.state = "idle" ∧
      s'.pause_timer = false ∧ s'.debouncing = false) ∧
    (∃ s', process_event ⟨95, []⟩ [("db", sessC2b)] bodyC2b570 =
        some (Store.set [("db", sessC2b)] "db" s',
          [payload "media_end" s']) ∧
      s'.media_end_emitted = true ∧ s'.state = "idle" ∧
      s'.pause_timer = false ∧ s'.debouncing = false) ∧
    (∃ s', process_event ⟨95, []⟩ [("dc", sessC2c)] bodyC2c570 =
        some (Store.set [("dc", sessC2c)] "dc" s', []) ∧
      s'.media_end_emitted = true) ∧
    (∃ s' es, process_event ⟨95, []⟩ [("dc", sessC2c)] bodyC2d =
        some (Store.set [("dc", sessC2c)] "dc" s', es) ∧
      s'.media_end_emitted = false ∧
      ∀ e ∈ es, e.event ≠ "media_end") :=
  ⟨c2_credits_threshold.1 [] [("dw", sessC2a)] bodyC2a
      [("dw", sessC2a')] [] rfl rfl rfl hevC2a,
    c2_credits_threshold.2.1 [] [("db", sessC2b)] bodyC2b571 571000
      rfl rfl rfl (by decide) (by decide) (fun h => absurd rfl h)
      (fun t ht => by
        cases Option.some_inj.mp (show some sessC2b = some t from ht)
        rfl),
    c2_credits_threshold.2.1 [] [("db", sessC2b)] bodyC2b570 570000
      rfl rfl rfl (by decide) (by decide) (fun h => absurd rfl h)
      (fun t ht => by
        cases Option.some_inj.mp (show some sessC2b = some t from ht)
        rfl),
    c2_credits_threshold.2.2.1 [] [("dc", sessC2c)] bodyC2c570 570000
      sessC2c rfl rfl rfl (by decide) (by decide) (fun h => absurd rfl h)
      rfl rfl (Or.inl rfl),
    c2_credits_threshold.2.2.2 [] [("dc", sessC2c)] bodyC2d 569999
      sessC2c rfl rfl rfl (by decide) (by decide) (fun h => absurd rfl h)
      rfl rfl (Or.inl rfl)⟩

/-- The detection guard reads only the flag and the run length. -/
lemma credits_end_check_congr {thr : ℚ} {s t : Session} (p : Int)
    (h1 : s.media_end_emitted = t.media_end_emitted)
    (h2 : s.run_time_ticks = t.run_time_ticks) :
    credits_end_check thr s p = credits_end_check thr t p := by
  unfold credits_end_check
  rw [h1, h2]

/-- C3: from a `playing` session with no debounce in progress, a paused
progress record starts the debounce (flag set, timer armed) emitting nothing;
a resume for the same device processed before the timer fires cancels it,
emitting neither `pause` nor `play`, the state staying `playing`; the timer
callback then finds the flag clear and does nothing. -/
theorem c3_resume_before_expiry_cancels_debounce (cfg : Config) (st : Store)
    (r1 r2 : Record) (s : Session)
    (hdid1 : r1.DeviceId.getD "" ≠ "")
    (hdid2 : r2.DeviceId.getD "" = r1.DeviceId.getD "")
    (hallow1 : cfg.allowed_devices ≠ [] →
      cfg.allowed_devices.contains
        (pyLower (pyStrip (r1.DeviceName.getD ""))) = true)
    (hallow2 : cfg.allowed_devices ≠ [] →
      cfg.allowed_devices.contains
        (pyLower (pyStrip (r2.DeviceName.getD ""))) = true)
    (hty1 : r1.NotificationType.getD "" = "PlaybackProgress")
    (hty2 : r2.NotificationType.getD "" = "PlaybackProgress")
    (hp1 : r1.IsPaused.getD false = true)
    (hp2 : r2.IsPaused.getD false = false)
    (hs : st.get? (r1.DeviceId.getD "") = some s)
    (hstate : s.state = "playing")
    (hdeb : s.debouncing = false)
    (hflag : s.media_end_emitted = false)
    (hitem1 : r1.ItemId.getD "" = "" ∨ r1.ItemId.getD "" = s.item_id)
    (hitem2 : r2.ItemId.getD "" = "" ∨ r2.ItemId.getD "" = s.item_id)
    (hend1 : credits_end_check cfg.credits_threshold_pct
      (update_metadata s r1) (r1.PlaybackPositionTicks.getD 0) = some false)
    (hend2 : credits_end_check cfg.credits_threshold_pct
      (update_metadata (update_metadata s r1) r2)
      (r2.PlaybackPositionTicks.getD 0) = some false) :
    ∃ s1 s2,
      process_event cfg st r1 =
        some (st.set (r1.DeviceId.getD "") s1, []) ∧
      s1.debouncing = true ∧ s1.pause_timer = true ∧ s1.state = "playing" ∧
      process_event cfg (st.set (r1.DeviceId.getD "") s1) r2 =
        some ((st.set (r1.DeviceId.getD "") s1).set
          (r1.DeviceId.getD "") s2, []) ∧
      s2.debouncing = false ∧ s2.pause_timer = false ∧
      s2.state = "playing" ∧
      confirm_pause ((st.set (r1.DeviceId.getD "") s1).set
          (r1.DeviceId.getD "") s2) (r1.DeviceId.getD "") =
        some (((st.set (r1.DeviceId.getD "") s1).set
          (r1.DeviceId.getD "") s2), []) := by
  have hadopt1 : adopt_item (update_metadata s r1) (r1.ItemId.getD "") =
      update_metadata s r1 := by
    apply adopt_item_of_same
    rcases hitem1 with h | h
    · exact .inl h
    · exact .inr (by rw [h, update_metadata_item_id])
  have hE1 : process_event cfg st r1 =
      some (st.set (r1.DeviceId.getD "")
        { update_metadata s r1 with
          last_position_ticks := r1.PlaybackPositionTicks.getD 0,
          debouncing := true, pause_timer := true }, []) := by
    rw [process_event_progress cfg st r1 hdid1 hallow1 hty1, hs]
    simp only [Option.getD_some]
    rw [hadopt1]
    rw [handle_progress_no_credits cfg _ _ _
      (credits_reset_check_of_not_emitted _ _ (by simp [hflag]))
      ((credits_end_check_congr _ (by simp) (by simp)).trans hend1)]
    rw [hp1, if_neg (by decide)]
    rw [pause_rule_arm (by simp [hstate]) (by simp [hdeb])]
    rfl
  set s1 : Session :=
    { update_metadata s r1 with
      last_position_ticks := r1.PlaybackPositionTicks.getD 0,
      debouncing := true, pause_timer := true } with hs1def
  have hdid2' : r2.DeviceId.getD "" ≠ "" := by
    rw [hdid2]
    exact hdid1
  have hadopt2 : adopt_item (update_metadata s1 r2) (r2.ItemId.getD "") =
      update_metadata s1 r2 := by
    apply adopt_item_of_same
    rcases hitem2 with h | h
    · exact .inl h
    · refine .inr (by rw [h, update_metadata_item_id, hs1def]; simp)
  have hE2 : process_event cfg (st.set (r1.DeviceId.getD "") s1) r2 =
      some ((st.set (r1.DeviceId.getD "") s1).set (r1.DeviceId.getD "")
        ({ update_metadata s1 r2 with
           last_position_ticks :=
             r2.PlaybackPositionTicks.getD 0 } : Session).cancel_pause_timer,
        []) := by
    rw [process_event_progress cfg _ r2 hdid2' hallow2 hty2]
    rw [hdid2, Store.get?_set_self]
    simp only [Option.getD_some]
    rw [hadopt2]
    rw [handle_progress_no_credits cfg _ _ _
      (credits_reset_check_of_not_emitted _ _ (by rw [hs1def]; simp [hflag]))
      ((credits_end_check_congr _
        (by rw [hs1def]; simp)
        (by rw [hs1def]
            simp [update_metadata_run_time])).trans hend2)]
    rw [hp2, if_pos rfl]
    rw [resume_rule_debouncing (by rw [hs1def]; simp)]
    rfl
  have hE3 : confirm_pause ((st.set (r1.DeviceId.getD "") s1).set
      (r1.DeviceId.getD "")
      ({ update_metadata s1 r2 with
         last_position_ticks :=
           r2.PlaybackPositionTicks.getD 0 } : Session).cancel_pause_timer)
      (r1.DeviceId.getD "") =
      some (((st.set (r1.DeviceId.getD "") s1).set (r1.DeviceId.getD "")
        ({ update_metadata s1 r2 with
           last_position_ticks :=
             r2.PlaybackPositionTicks.getD 0 } : Session).cancel_pause_timer),
        []) := by
    simp only [confirm_pause, Store.get?_set_self]
    rw [if_neg (by simp)]
  refine ⟨s1,
    ({ update_metadata s1 r2 with
       last_position_ticks :=
         r2.PlaybackPositionTicks.getD 0 } : Session).cancel_pause_timer,
    hE1, by rw [hs1def], by rw [hs1def], by rw [hs1def]; simp [hstate],
    hE2, by simp, by simp, ?_, hE3⟩
  rw [hs1def]
  simp [hstate]

def sessC3 : Session := { device_id := "d3", state := "playing" }

def bodyC3pause : Record :=
  { NotificationType := some "PlaybackProgress", DeviceId := some "d3",
    IsPaused := some true }

def bodyC3resume : Record :=
  { NotificationType := some "PlaybackProgress", DeviceId := some "d3",
    IsPaused := some false }

/-- C3 witness: the concrete pause/resume pair arms then cancels the
debounce: nothing is emitted by either record, the state stays `playing`,
and the late timer callback is a no-op. -/
theorem c3_witness :
    ∃ s1 s2,
      process_event ⟨95, []⟩ [("d3", sessC3)] bodyC3pause =
        some (Store.set [("d3", sessC3)] "d3" s1, []) ∧
      s1.debouncing = true ∧ s1.pause_timer = true ∧ s1.state = "playing" ∧
      process_event ⟨95, []⟩ (Store.set [("d3", sessC3)] "d3" s1)
          bodyC3resume =
        some ((Store.set [("d3", sessC3)] "d3" s1).set "d3" s2, []) ∧
      s2.debouncing = false ∧ s2.pause_timer = false ∧
      s2.state = "playing" ∧
      confirm_pause ((Store.set [("d3", sessC3)] "d3" s1).set "d3" s2)
          "d3" =
        some (((Store.set [("d3", sessC3)] "d3" s1).set "d3" s2), []) :=
  c3_resume_before_expiry_cancels_debounce ⟨95, []⟩ [("d3", sessC3)]
    bodyC3pause bodyC3resume sessC3
    (by decide) rfl (fun h => absurd rfl h) (fun h => absurd rfl h)
    rfl rfl rfl rfl rfl rfl rfl rfl
    (Or.inl rfl) (Or.inl rfl) (by decide) (by decide)

/-! ## C4: the timer handle exists iff the debounce flag is set -/

/-- The claimed invariant: a stored timer handle exists iff `_debouncing`. -/
def timerInv (s : Session) : Prop := s.pause_timer = s.debouncing

lemma timerInv_update_metadata {s : Session} (hi : timerInv s) (b : Record) :
    timerInv (update_metadata s b) := hi

lemma timerInv_adopt_item {s : Session} (hi : timerInv s) (it : String) :
    timerInv (adopt_item s it) := by
  unfold adopt_item
  split
  · exact rfl
  · exact hi

lemma resume_rule_timerInv {s s' : Session} {es : List Event}
    (hi : timerInv s) (h : resume_rule s = some (s', es)) : timerInv s' := by
  simp only [resume_rule] at h
  split at h
  · cases h
    exact rfl
  · split at h
    · split at h
      · cases h
        exact hi
      · rw [emit_eq] at h
        simp only [Option.map_some'] at h
        cases h
        exact hi
    · cases h
      exact hi

lemma pause_rule_timerInv {s s' : Session} {es : List Event}
    (hi : timerInv s) (h : pause_rule s = some (s', es)) : timerInv s' := by
  simp only [pause_rule] at h
  split at h <;> cases h
  · exact rfl
  · exact hi

lemma handle_progress_timerInv {cfg : Config} {ip : Bool} {p : Int}
    {s s' : Session} {es : List Event}
    (hi : timerInv s) (h : handle_progress cfg ip p s = some (s', es)) :
    timerInv s' := by
  simp only [handle_progress] at h
  obtain ⟨reset, hr, h⟩ := Option.bind_eq_some.mp h
  obtain ⟨fire, he, h⟩ := Option.bind_eq_some.mp h
  clear hr he
  cases fire with
  | true =>
    rw [if_pos rfl, emit_eq] at h
    simp only [Option.map_some'] at h
    cases h
    exact rfl
  | false =>
    rw [if_neg (by simp)] at h
    split at h
    · exact resume_rule_timerInv (by cases reset <;> exact hi) h
    · exact pause_rule_timerInv (by cases reset <;> exact hi) h

lemma process_locked_timerInv {cfg : Config} {body : Record}
    {s0 s' : Session} {es : List Event}
    (hi : timerInv s0) (h : process_locked cfg body s0 = some (s', es)) :
    timerInv s' := by
  simp only [process_locked] at h
  split at h
  · rw [handle_start_eq] at h
    cases h
    exact rfl
  · split at h
    · rw [handle_stop_eq] at h
      cases h
      exact rfl
    · split at h
      · cases h
        exact timerInv_adopt_item (timerInv_update_metadata hi body) _
      · exact handle_progress_timerInv
          (timerInv_adopt_item (timerInv_update_metadata hi body) _) h

lemma process_event_timerInv {cfg : Config} {st st' : Store} {body : Record}
    {es : List Event}
    (hinv : ∀ q ∈ st, timerInv q.2)
    (h : process_event cfg st body = some (st', es)) :
    ∀ q ∈ st', timerInv q.2 := by
  simp only [process_event] at h
  split at h
  · cases h
    exact hinv
  · split at h
    · cases h
      exact hinv
    · obtain ⟨⟨s1, es1⟩, hpl, heq⟩ := Option.map_eq_some'.mp h
      cases heq
      intro q hq
      rcases Store.mem_set hq with rfl | hq2
      · have hs0 : timerInv ((st.get? (body.DeviceId.getD "")).getD
            { device_id := body.DeviceId.getD "" }) := by
          cases hget : st.get? (body.DeviceId.getD "") with
          | none => exact rfl
          | some t =>
            simp only [Option.getD_some]
            exact hinv (body.DeviceId.getD "", t) (Store.get?_mem hget)
        exact process_locked_timerInv hs0 hpl
      · exact hinv q hq2

lemma confirm_pause_timerInv {st st' : Store} {did : String}
    {es : List Event}
    (hinv : ∀ q ∈ st, timerInv q.2)
    (h : confirm_pause st did = some (st', es)) :
    ∀ q ∈ st', timerInv q.2 := by
  simp only [confirm_pause] at h
  split at h
  · cases h
    exact hinv
  · split at h
    · rw [emit_eq] at h
      simp only [Option.map_some'] at h
      cases h
      intro q hq
      rcases Store.mem_set hq with rfl | hq2
      · exact rfl
      · exact hinv q hq2
    · cases h
      exact hinv

/-- C4: in every reachable store — the empty initial store evolved by
lock-serialized steps (record processing or timer callback) — every session
has a stored timer handle iff its debounce flag is set, and the cancel
operation clears both together. -/
theorem c4_timer_iff_debouncing (cfg : Config) (st : Store)
    (h : Reachable cfg st) :
    (∀ q ∈ st, (q.2.pause_timer = true ↔ q.2.debouncing = true)) ∧
    (∀ t : Session, t.cancel_pause_timer.pause_timer = false ∧
      t.cancel_pause_timer.debouncing = false) := by
  refine ⟨?_, fun t => ⟨rfl, rfl⟩⟩
  have hall : ∀ q ∈ st, timerInv q.2 := by
    induction h with
    | init =>
      intro q hq
      simp at hq
    | step stp hr hrun ih =>
      cases stp with
      | recv body => exact process_event_timerInv ih hrun
      | fire did => exact confirm_pause_timerInv ih hrun
  intro q hq
  have hq2 : q.2.pause_timer = q.2.debouncing := hall q hq
  rw [hq2]

def bodyC4start : Record :=
  { NotificationType := some "PlaybackStart", DeviceId := some "d4" }

def bodyC4pause : Record :=
  { NotificationType := some "PlaybackProgress", DeviceId := some "d4",
    IsPaused := some true }

def sessC4a : Session := { device_id := "d4", state := "playing" }

def evC4 : Event :=
  { event := "PlaybackStart", device := "", client := "", media := "",
    media_type := "", position_pct := 0 }

def sessC4 : Session :=
  { device_id := "d4", state := "playing", pause_timer := true,
    debouncing := true }

lemma reachC4 : Reachable ⟨95, []⟩ [("d4", sessC4)] :=
  @Reachable.step ⟨95, []⟩ [("d4", sessC4a)] [("d4", sessC4)] []
    (Step.recv bodyC4pause)
    (@Reachable.step ⟨95, []⟩ [] [("d4", sessC4a)] [evC4]
      (Step.recv bodyC4start) Reachable.init (by decide))
    (by decide)

/-- C4 witness: after a concrete start-then-pause sequence the armed session
is reachable and satisfies the invariant (handle present iff debouncing). -/
theorem c4_witness :
    sessC4.pause_timer = true ↔ sessC4.debouncing = true :=
  (c4_timer_iff_debouncing ⟨95, []⟩ [("d4", sessC4)] reachC4).1
    ("d4", sessC4) (by simp)
